import Mathlib

/-!
Verification development for the crypto signal generator
(`signalGenerator.js`): candle data model, technical indicators
(SMA/EMA/RSI/MACD/Bollinger/ATR/momentum/volatility/volume ratio),
the regime-aware scoring engine, the decision/confidence logic, the
target calculator, and the deterministic synthetic data generator.

Modelling conventions:
* JavaScript numbers are modelled as exact rationals (`ℚ`); the decimal
  constants of the source are exact in `ℚ`.
* `Math.sqrt` is modelled as an abstract parameter `sqrtFn : ℚ → ℚ`:
  the properties proved below do not depend on its values, and concrete
  evaluations instantiate it with the rational floor square root
  `ratSqrt` defined here.
* Fallible lookups (indexing an empty array) are modelled with `Option`.
  `generateSignal` returns `none` exactly when the source throws a
  `TypeError`: on empty input (at `price.toFixed(2)`, where `price` is
  `undefined`), and when `signalType` names an inherited
  `Object.prototype` member (at the array destructuring of
  `targets[signalType]`, which is then a truthy non-iterable and skips
  the `|| targets.swing` default).
* JS property lookups on the object literals (`targets`, `thresholds`)
  traverse the prototype chain: an own key hits, an inherited
  `Object.prototype` key yields a truthy non-numeric value, anything
  else is `undefined` and takes the `||` default. For `thresholds` an
  inherited key makes `threshold` non-numeric in the source, every
  score comparison against it `false` (NaN semantics), and the decision
  `HOLD`; `baseThreshold` instead uses the `3.6` default there, a
  documented simplification (no throw is reachable on that path and
  no theorem below depends on the behaviour at those twelve keys).
* `x.toFixed(n)` (round half away from zero at `n` decimals, here only
  applied to nonnegative-rounding contexts) is modelled by
  `round2`/`round1`/`round4` using Mathlib's `round` (round half up).
* The wall clock (`Date.now()`) is passed explicitly as the `now`
  argument of `generateDemoData`.
-/

set_option linter.unusedVariables false

set_option allowUnsafeReducibility true in
attribute [semireducible] Rat.add Rat.mul Rat.sub Rat.inv Rat.ofScientific

namespace Catalyst

/-- One OHLCV candle. The `open` field of the source is called `open_`
because `open` is a Lean keyword. -/
structure Candle where
  timestamp : ℤ
  open_ : ℚ
  high : ℚ
  low : ℚ
  close : ℚ
  volume : ℚ
deriving DecidableEq, Repr

/-- JS `avg(values)`: `null` on an empty list, else the arithmetic mean. -/
def avg (values : List ℚ) : Option ℚ :=
  if values.length = 0 then none else some (values.sum / (values.length : ℚ))

/-- JS `clamp(value, min, max) = Math.max(min, Math.min(max, value))`. -/
def clamp (value minV maxV : ℚ) : ℚ := max minV (min maxV value)

/-- The trailing-window slice `prices.slice(-period)` (whole list when
shorter than `period`, matching JS `slice`). -/
def lastN (prices : List ℚ) (period : ℕ) : List ℚ :=
  prices.drop (prices.length - period)

/-- Mean of the last `period` closes (the unguarded value). -/
def smaVal (prices : List ℚ) (period : ℕ) : ℚ :=
  (lastN prices period).sum / (period : ℚ)

/-- JS `sma(prices, period)`: `null` when fewer than `period` prices. -/
def sma (prices : List ℚ) (period : ℕ) : Option ℚ :=
  if prices.length < period then none else some (smaVal prices period)

/-- The EMA recurrence `e := p * k + e * (1 - k)` folded over a list. -/
def emaRunK (k : ℚ) (seed : ℚ) (l : List ℚ) : ℚ :=
  l.foldl (fun e p => p * k + e * (1 - k)) seed

/-- The unguarded EMA value: seeded with the simple average of the first
`period` prices, then the recurrence with `k = 2/(period+1)` over the rest. -/
def emaVal (prices : List ℚ) (period : ℕ) : ℚ :=
  emaRunK (2 / (period + 1)) ((prices.take period).sum / (period : ℚ)) (prices.drop period)

/-- JS `ema(prices, period)`: `null` when fewer than `period` prices. -/
def ema (prices : List ℚ) (period : ℕ) : Option ℚ :=
  if prices.length < period then none else some (emaVal prices period)

/-- The `period` consecutive deltas `prices[i] - prices[i-1]` for
`i` from `length - period` to `length - 1`. -/
def rsiDeltas (prices : List ℚ) (period : ℕ) : List ℚ :=
  let window := prices.drop (prices.length - (period + 1))
  window.zipWith (fun prev cur => cur - prev) window.tail

/-- JS `rsi(prices, period = 14)`: average gain / average loss over the
last `period` deltas; defined as `100` when the average loss is zero. -/
def rsi (prices : List ℚ) (period : ℕ := 14) : Option ℚ :=
  if prices.length < period + 1 then none
  else
    let deltas := rsiDeltas prices period
    let avgGain := (deltas.map (fun d => if d > 0 then d else 0)).sum / (period : ℚ)
    let avgLoss := (deltas.map (fun d => if d > 0 then 0 else -d)).sum / (period : ℚ)
    if avgLoss = 0 then some 100
    else some (100 - 100 / (1 + avgGain / avgLoss))

/-- Result record of `macd`. -/
structure MacdResult where
  line : Option ℚ
  signal : Option ℚ
  histogram : Option ℚ
deriving DecidableEq, Repr

/-- One step of the MACD history loop: advance the 12- and 26-period EMAs
and append the difference to the history. -/
def macdStep (st : ℚ × ℚ × List ℚ) (p : ℚ) : ℚ × ℚ × List ℚ :=
  let e12 := p * (2 / 13) + st.1 * (1 - 2 / 13)
  let e26 := p * (2 / 27) + st.2.1 * (1 - 2 / 27)
  (e12, e26, st.2.2 ++ [e12 - e26])

/-- JS `macd(prices)`: all-`null` below 26 prices; `line = ema12 - ema26`;
the signal line is the 9-period EMA over the re-derived MACD history
(present only when the history has at least 9 points); `histogram = line
- signal` when the signal is present. -/
def macd (prices : List ℚ) : MacdResult :=
  if prices.length < 26 then ⟨none, none, none⟩
  else
    match ema prices 12, ema prices 26 with
    | some e12f, some e26f =>
      let line := e12f - e26f
      let e12init := emaRunK (2 / 13) ((prices.take 12).sum / 12) ((prices.drop 12).take 14)
      let e26init := (prices.take 26).sum / 26
      let res := (prices.drop 26).foldl macdStep (e12init, e26init, [])
      let macdHistory := res.2.2
      let signalLine : Option ℚ :=
        if 9 ≤ macdHistory.length then
          some (emaRunK (2 / 10) ((macdHistory.take 9).sum / 9) (macdHistory.drop 9))
        else none
      { line := some line
        signal := signalLine
        histogram := signalLine.map (fun s => line - s) }
    | _, _ => ⟨none, none, none⟩

/-- Result record of `bollingerBands`. -/
structure BBands where
  upper : Option ℚ
  middle : Option ℚ
  lower : Option ℚ
deriving DecidableEq, Repr

/-- JS `bollingerBands(prices, period = 20, stdDev = 2)`: middle band is
the SMA, the offset is `stdDev` times the population standard deviation
of the trailing window (square root taken by `sqrtFn`). -/
def bollingerBands (sqrtFn : ℚ → ℚ) (prices : List ℚ) (period : ℕ := 20)
    (sdMul : ℚ := 2) : BBands :=
  if prices.length < period then ⟨none, none, none⟩
  else
    let mid := smaVal prices period
    let slice := lastN prices period
    let variance := (slice.map (fun v => (v - mid) ^ 2)).sum / (period : ℚ)
    let sd := sqrtFn variance
    ⟨some (mid + sdMul * sd), some mid, some (mid - sdMul * sd)⟩

/-- JS `stdDev(values)`: population standard deviation, `null` on empty
input (square root taken by `sqrtFn`). -/
def stdDev (sqrtFn : ℚ → ℚ) (values : List ℚ) : Option ℚ :=
  if values.length = 0 then none
  else
    let mean := values.sum / (values.length : ℚ)
    let variance := (values.map (fun v => (v - mean) ^ 2)).sum / (values.length : ℚ)
    some (sqrtFn variance)

/-- JS `momentum(prices, period)`: relative change over `period` steps,
`null` when the list is too short or the base value is falsy (zero). -/
def momentum (prices : List ℚ) (period : ℕ) : Option ℚ :=
  if prices.length ≤ period then none
  else
    match prices[prices.length - 1 - period]?, prices[prices.length - 1]? with
    | some base, some lastP =>
      if base = 0 then none else some ((lastP - base) / base)
    | _, _ => none

/-- True range of a candle against the previous close. -/
def trueRange (c : Candle) (prevClose : ℚ) : ℚ :=
  max (c.high - c.low) (max |c.high - prevClose| |c.low - prevClose|)

/-- JS `atr(ohlcv, period = 14)`: mean of the last `period` true ranges;
`null` when fewer than `period + 1` candles. -/
def atr (ohlcv : List Candle) (period : ℕ := 14) : Option ℚ :=
  if ohlcv.length < period + 1 then none
  else
    let window := ohlcv.drop (ohlcv.length - (period + 1))
    let trs := window.zipWith (fun prev c => trueRange c prev.close) window.tail
    avg trs

/-- The per-step simple returns `(closes[i+1] - closes[i]) / closes[i]`,
with `0` where the previous close is falsy (zero), as in the source. -/
def returnsOf (closes : List ℚ) : List ℚ :=
  (closes.drop 1).zipWith (fun price prev => if prev = 0 then 0 else (price - prev) / prev) closes

/-- Snapshot of all indicator values for the latest candle
(JS `analyzeIndicators`). `none` marks the insufficient-data state. -/
structure IndicatorSet where
  currentPrice : Option ℚ
  rsi : Option ℚ
  macd : MacdResult
  bollingerBands : BBands
  ema20 : Option ℚ
  ema50 : Option ℚ
  sma200 : Option ℚ
  atr14 : Option ℚ
  momentum3 : Option ℚ
  momentum10 : Option ℚ
  volatility20 : Option ℚ
  latestVolume : ℚ
  avgVolume : ℚ
  volumeRatioVal : Option ℚ
deriving DecidableEq, Repr

/-- JS `analyzeIndicators(ohlcv)`. -/
def analyzeIndicators (sqrtFn : ℚ → ℚ) (ohlcv : List Candle) : IndicatorSet :=
  let closes := ohlcv.map (·.close)
  let returns := returnsOf closes
  let recentVols := (ohlcv.drop (ohlcv.length - 20)).map (·.volume)
  let latestVolume := ((ohlcv.getLast?).map (·.volume)).getD 0
  let avgVolume := (avg recentVols).getD 0
  { currentPrice := closes.getLast?
    rsi := rsi closes
    macd := macd closes
    bollingerBands := bollingerBands sqrtFn closes
    ema20 := ema closes 20
    ema50 := ema closes 50
    sma200 := if 200 ≤ closes.length then sma closes 200 else none
    atr14 := atr ohlcv 14
    momentum3 := momentum closes 3
    momentum10 := momentum closes 10
    volatility20 := stdDev sqrtFn (returns.drop (returns.length - 20))
    latestVolume
    avgVolume
    volumeRatioVal := if avgVolume > 0 then some (latestVolume / avgVolume) else none }


/-- Market regime classification. -/
inductive Regime
  | uptrend
  | downtrend
  | range
deriving DecidableEq, Repr

/-- The three possible decisions. -/
inductive Sig
  | BUY
  | SELL
  | HOLD
deriving DecidableEq, Repr

/-- The reason strings pushed by the scoring pass, as symbolic tags
carrying the interpolated numeric value where the source interpolates
one (string formatting itself is not modelled). -/
inductive Reason
  | regimeRanging
  | regimeTrending (r : Regime)
  | rsiDipBuy (v : ℚ)
  | rsiExhaustion (v : ℚ)
  | rsiHealthyUp (v : ℚ)
  | rsiRallySell (v : ℚ)
  | rsiReliefBounce (v : ℚ)
  | rsiNeutralDown (v : ℚ)
  | rsiOversoldRange (v : ℚ)
  | rsiOverboughtRange (v : ℚ)
  | rsiNeutralRange (v : ℚ)
  | macdFreshBull
  | macdStrengthBull
  | macdPersistBull
  | macdFreshBear
  | macdStrengthBear
  | macdPersistBear
  | macdEquilibrium
  | bbLowerTouch (v : ℚ)
  | bbUpperTouch (v : ℚ)
  | bbCompressed
  | emaBullStructure
  | emaBearStructure
  | emaMixed
  | smaAboveLong
  | smaBelowLong
  | momentumUp
  | momentumDown
  | momentumMixed
  | volumeSpike (v : ℚ)
  | volumeLow (v : ℚ)
  | contradictionPenalty
  | insufficientEdge
deriving DecidableEq, Repr

/-- The mutable accumulator of the scoring pass. -/
structure ScoreState where
  buyScore : ℚ
  sellScore : ℚ
  buyEvidence : ℕ
  sellEvidence : ℕ
  reasons : List Reason
deriving DecidableEq, Repr

/-- JS `addBuy(points, reason)`. -/
def addBuy (st : ScoreState) (points : ℚ) (reason : Reason) : ScoreState :=
  { st with buyScore := st.buyScore + points
            buyEvidence := st.buyEvidence + 1
            reasons := st.reasons ++ [reason] }

/-- JS `addSell(points, reason)`. -/
def addSell (st : ScoreState) (points : ℚ) (reason : Reason) : ScoreState :=
  { st with sellScore := st.sellScore + points
            sellEvidence := st.sellEvidence + 1
            reasons := st.reasons ++ [reason] }

/-- `reasons.push(reason)` without touching the scores. -/
def pushReason (st : ScoreState) (reason : Reason) : ScoreState :=
  { st with reasons := st.reasons ++ [reason] }

/-- `trendBias = (ema20 - ema50) / price` when both EMAs are present,
else `0`. -/
def trendBiasOf (ema20 ema50 : Option ℚ) (price : ℚ) : ℚ :=
  match ema20, ema50 with
  | some e20, some e50 => (e20 - e50) / price
  | _, _ => 0

/-- Regime detection: a strong trend needs `|trendBias| ≥ 0.012`. -/
def regimeOf (trendBias : ℚ) : Regime :=
  if 0.012 ≤ |trendBias| then (if trendBias > 0 then .uptrend else .downtrend)
  else .range

/-- The initial score state, holding the regime reason. -/
def initialScore (regime : Regime) : ScoreState :=
  ⟨0, 0, 0, 0, [if regime = .range then .regimeRanging else .regimeTrending regime]⟩

/-- The regime-conditioned RSI rule. -/
def rsiBlock (regime : Regime) (rsiVal : Option ℚ) (st : ScoreState) : ScoreState :=
  match rsiVal with
  | none => st
  | some r =>
    match regime with
    | .uptrend =>
      if r < 38 then addBuy st 1.6 (.rsiDipBuy r)
      else if r > 78 then addSell st 1.2 (.rsiExhaustion r)
      else pushReason st (.rsiHealthyUp r)
    | .downtrend =>
      if r > 62 then addSell st 1.6 (.rsiRallySell r)
      else if r < 22 then addBuy st 1.1 (.rsiReliefBounce r)
      else pushReason st (.rsiNeutralDown r)
    | .range =>
      if r < 30 then addBuy st 1.8 (.rsiOversoldRange r)
      else if r > 70 then addSell st 1.8 (.rsiOverboughtRange r)
      else pushReason st (.rsiNeutralRange r)

/-- The MACD rule with crossover detection against the previous bar. -/
def macdBlock (macdVal prevMacd : MacdResult) (st : ScoreState) : ScoreState :=
  match macdVal.histogram, macdVal.line, macdVal.signal with
  | some histNow, some line, some sigLine =>
    if histNow > 0 ∧ line > sigLine then
      match prevMacd.histogram with
      | some histPrev =>
        if histPrev ≤ 0 then addBuy st 1.9 .macdFreshBull
        else if histNow > histPrev then addBuy st 1.4 .macdStrengthBull
        else addBuy st 1.1 .macdPersistBull
      | none => addBuy st 1.1 .macdPersistBull
    else if histNow < 0 ∧ line < sigLine then
      match prevMacd.histogram with
      | some histPrev =>
        if histPrev ≥ 0 then addSell st 1.9 .macdFreshBear
        else if histNow < histPrev then addSell st 1.4 .macdStrengthBear
        else addSell st 1.1 .macdPersistBear
      | none => addSell st 1.1 .macdPersistBear
    else pushReason st .macdEquilibrium
  | _, _, _ => st

/-- The Bollinger touch rule and the band-compression multiplier. -/
def bbBlock (regime : Regime) (price : ℚ) (bb : BBands) (st : ScoreState) : ScoreState :=
  match bb.lower, bb.middle, bb.upper with
  | some lower, some middle, some upper =>
    let bandWidth := (upper - lower) / middle
    let st1 :=
      if price ≤ lower then
        addBuy st (if regime = .downtrend then 0.8 else 1.4) (.bbLowerTouch lower)
      else if price ≥ upper then
        addSell st (if regime = .uptrend then 0.8 else 1.4) (.bbUpperTouch upper)
      else st
    if bandWidth < 0.04 then
      { pushReason st1 .bbCompressed with
          buyScore := st1.buyScore * 0.95
          sellScore := st1.sellScore * 0.95 }
    else st1
  | _, _, _ => st

/-- The EMA-structure rule. -/
def emaBlock (price : ℚ) (ema20 ema50 : Option ℚ) (st : ScoreState) : ScoreState :=
  match ema20, ema50 with
  | some e20, some e50 =>
    if price > e20 ∧ e20 > e50 then addBuy st 1.5 .emaBullStructure
    else if price < e20 ∧ e20 < e50 then addSell st 1.5 .emaBearStructure
    else pushReason st .emaMixed
  | _, _ => st

/-- The SMA200 long-term trend rule. -/
def sma200Block (price : ℚ) (sma200 : Option ℚ) (st : ScoreState) : ScoreState :=
  match sma200 with
  | some s => if price > s then addBuy st 0.7 .smaAboveLong else addSell st 0.7 .smaBelowLong
  | none => st

/-- The momentum-alignment rule. -/
def momentumBlock (m3 m10 : Option ℚ) (st : ScoreState) : ScoreState :=
  match m3, m10 with
  | some a, some b =>
    if a > 0 ∧ b > 0 then addBuy st 1.1 .momentumUp
    else if a < 0 ∧ b < 0 then addSell st 1.1 .momentumDown
    else pushReason st .momentumMixed
  | _, _ => st

/-- The volume spike/drought rule. -/
def volumeBlock (vr : Option ℚ) (st : ScoreState) : ScoreState :=
  match vr with
  | some v =>
    if v > 1.6 then
      let st1 := pushReason st (.volumeSpike v)
      if st1.buyScore > st1.sellScore then { st1 with buyScore := st1.buyScore + 0.6 }
      else if st1.sellScore > st1.buyScore then { st1 with sellScore := st1.sellScore + 0.6 }
      else st1
    else if v < 0.75 then
      { pushReason st (.volumeLow v) with
          buyScore := st.buyScore * 0.93
          sellScore := st.sellScore * 0.93 }
    else st
  | none => st

/-- The contradiction penalty: when both scores are positive, subtract
`0.35 * min(buyScore, sellScore)` from each. -/
def contradictionBlock (st : ScoreState) : ScoreState :=
  if st.buyScore > 0 ∧ st.sellScore > 0 then
    let overlap := min st.buyScore st.sellScore * 0.35
    { pushReason st .contradictionPenalty with
        buyScore := st.buyScore - overlap
        sellScore := st.sellScore - overlap }
  else st

/-- The whole scoring pass, in the evaluation order of the source. -/
def scorePass (regime : Regime) (price : ℚ) (ind : IndicatorSet)
    (prevMacd : MacdResult) : ScoreState :=
  contradictionBlock
    (volumeBlock ind.volumeRatioVal
      (momentumBlock ind.momentum3 ind.momentum10
        (sma200Block price ind.sma200
          (emaBlock price ind.ema20 ind.ema50
            (bbBlock regime price ind.bollingerBands
              (macdBlock ind.macd prevMacd
                (rsiBlock regime ind.rsi (initialScore regime))))))))

/-- The list of successive score states of the pass (before and after
each rule block), whose last element is `scorePass`. -/
def scoreStates (regime : Regime) (price : ℚ) (ind : IndicatorSet)
    (prevMacd : MacdResult) : List ScoreState :=
  let st0 := initialScore regime
  let st1 := rsiBlock regime ind.rsi st0
  let st2 := macdBlock ind.macd prevMacd st1
  let st3 := bbBlock regime price ind.bollingerBands st2
  let st4 := emaBlock price ind.ema20 ind.ema50 st3
  let st5 := sma200Block price ind.sma200 st4
  let st6 := momentumBlock ind.momentum3 ind.momentum10 st5
  let st7 := volumeBlock ind.volumeRatioVal st6
  let st8 := contradictionBlock st7
  [st0, st1, st2, st3, st4, st5, st6, st7, st8]

/-- Risk-tolerance base thresholds (default moderate). -/
def baseThreshold (riskTolerance : String) : ℚ :=
  if riskTolerance = "conservative" then 4.9
  else if riskTolerance = "moderate" then 3.6
  else if riskTolerance = "aggressive" then 2.6
  else 3.6

/-- The effective threshold: base, `+0.2` in a ranging regime, `+0.2`
when the trailing return volatility exceeds `0.025`. -/
def thresholdOf (riskTolerance : String) (regime : Regime)
    (volatility20 : Option ℚ) : ℚ :=
  let t1 := baseThreshold riskTolerance
  let t2 := if regime = .range then t1 + 0.2 else t1
  match volatility20 with
  | some v => if v > 0.025 then t2 + 0.2 else t2
  | none => t2

/-- `+x.toFixed(2)` on exact rationals. -/
def round2 (q : ℚ) : ℚ := ((round (q * 100) : ℤ) : ℚ) / 100

/-- `+x.toFixed(1)` on exact rationals. -/
def round1 (q : ℚ) : ℚ := ((round (q * 10) : ℤ) : ℚ) / 10

/-- `+x.toFixed(4)` on exact rationals. -/
def round4 (q : ℚ) : ℚ := ((round (q * 10000) : ℤ) : ℚ) / 10000

/-- The display-rounded indicator block of the returned signal object. -/
structure DisplayIndicators where
  rsi : Option ℚ
  macd : MacdResult
  bollingerBands : BBands
  ema20 : Option ℚ
  ema50 : Option ℚ
  sma200 : Option ℚ
  atr14 : Option ℚ
  momentum3 : Option ℚ
  momentum10 : Option ℚ
  volatility20 : Option ℚ
  volumeRatioVal : Option ℚ
deriving DecidableEq, Repr

/-- The display rounding applied to the indicator snapshot in the
returned object (2 decimals for prices/RSI, 4 for MACD/ATR, momenta and
volatility scaled by 100 then 2 decimals). -/
def displayOf (ind : IndicatorSet) : DisplayIndicators :=
  { rsi := ind.rsi.map round2
    macd := { line := ind.macd.line.map round4
              signal := ind.macd.signal.map round4
              histogram := ind.macd.histogram.map round4 }
    bollingerBands := ⟨ind.bollingerBands.upper.map round2,
                       ind.bollingerBands.middle.map round2,
                       ind.bollingerBands.lower.map round2⟩
    ema20 := ind.ema20.map round2
    ema50 := ind.ema50.map round2
    sma200 := ind.sma200.map round2
    atr14 := ind.atr14.map round4
    momentum3 := ind.momentum3.map (fun m => round2 (m * 100))
    momentum10 := ind.momentum10.map (fun m => round2 (m * 100))
    volatility20 := ind.volatility20.map (fun v => round2 (v * 100))
    volumeRatioVal := ind.volumeRatioVal.map round2 }

/-- The full result of `generateSignal`, keeping both the returned
fields and the internal quantities (scores, edge, threshold, regime)
that the returned fields are computed from. -/
structure FullResult where
  signal : Sig
  buyScore : ℚ
  sellScore : ℚ
  buyEvidence : ℕ
  sellEvidence : ℕ
  edge : ℚ
  dominantScore : ℚ
  threshold : ℚ
  trendBias : ℚ
  regime : Regime
  confidence : ℚ
  confidenceDisplay : ℚ
  priceRaw : ℚ
  currentPrice : ℚ
  entryLow : ℚ
  entryHigh : ℚ
  tp1 : ℚ
  tp2 : ℚ
  sl : ℚ
  tp1Pct : ℚ
  tp2Pct : ℚ
  slPctOut : ℚ
  riskReward : ℚ
  reasons : List Reason
  ind : IndicatorSet
  indicators : DisplayIndicators

/-- The property names every plain object literal inherits from
`Object.prototype`: a lookup with one of these keys on the `targets`
literal yields a truthy inherited value (a built-in function, or the
prototype object itself for `__proto__`) rather than `undefined`. -/
def objectProtoKeys : List String :=
  ["constructor", "hasOwnProperty", "isPrototypeOf", "propertyIsEnumerable",
   "toLocaleString", "toString", "valueOf", "__defineGetter__",
   "__defineSetter__", "__lookupGetter__", "__lookupSetter__", "__proto__"]

/-- JS `targets[signalType] || targets.swing` followed by the array
destructuring `[tp1Pct, tp2Pct, slPct]`: an own key yields its triple
and a genuine miss (`undefined`, falsy) falls back to the swing triple,
but an inherited `Object.prototype` member is truthy — the `||` default
is skipped and destructuring the non-iterable throws a `TypeError`,
modelled as `none`. -/
def targetPcts (signalType : String) : Option (ℚ × ℚ × ℚ) :=
  if signalType = "scalp" then some (0.01, 0.02, 0.005)
  else if signalType = "swing" then some (0.03, 0.08, 0.015)
  else if signalType = "position" then some (0.10, 0.20, 0.03)
  else if signalType ∈ objectProtoKeys then none
  else some (0.03, 0.08, 0.015)

/-- The body of JS `generateSignal` after the indicator snapshot and the
previous-bar MACD are available; `price` is the latest close. The
`getD` default in the target lookup is never reached from
`generateSignalFull`, which returns `none` (the thrown `TypeError`)
before calling this function whenever `targetPcts signalType` is
`none`. -/
def mkSignal (ind : IndicatorSet) (prevMacd : MacdResult)
    (signalType riskTolerance : String) (price : ℚ) : FullResult :=
  let trendBias := trendBiasOf ind.ema20 ind.ema50 price
  let regime := regimeOf trendBias
  let st := scorePass regime price ind prevMacd
  let threshold := thresholdOf riskTolerance regime ind.volatility20
  let edge := |st.buyScore - st.sellScore|
  let dominantScore := max st.buyScore st.sellScore
  let signal : Sig :=
    if st.buyScore ≥ threshold ∧ st.buyScore > st.sellScore ∧ edge ≥ 0.9 then .BUY
    else if st.sellScore ≥ threshold ∧ st.sellScore > st.buyScore ∧ edge ≥ 0.9 then .SELL
    else .HOLD
  let stF := if signal = .HOLD then pushReason st .insufficientEdge else st
  let confidence :=
    if signal = .HOLD then clamp (42 + edge * 6) 40 65
    else
      let evidenceCount : ℕ := if signal = .BUY then st.buyEvidence else st.sellEvidence
      clamp (dominantScore * 13 + edge * 16 + (evidenceCount : ℚ) * 2) 55 95
  let tPcts := (targetPcts signalType).getD (0.03, 0.08, 0.015)
  let tp1Pct := tPcts.1
  let tp2Pct := tPcts.2.1
  let slPct := tPcts.2.2
  let dir : ℚ := if signal = .SELL then -1 else 1
  let atrPct : Option ℚ := ind.atr14.map (fun a => a / price)
  let entryPadPct := clamp (match atrPct with | some a => a * 0.3 | none => 0.002) 0.0015 0.008
  let dynamicSlPct :=
    clamp (match atrPct with | some a => max slPct (a * 1.1) | none => slPct)
      (slPct * 0.85) (slPct * 1.9)
  let entryLow := round2 (price * (1 - entryPadPct))
  let entryHigh := round2 (price * (1 + entryPadPct))
  let tp1 := round2 (price * (1 + dir * tp1Pct))
  let tp2 := round2 (price * (1 + dir * tp2Pct))
  let sl := round2 (price * (1 - dir * dynamicSlPct))
  let riskReward := if signal ≠ .HOLD then round2 (|tp2 - price| / |price - sl|) else 0
  { signal
    buyScore := st.buyScore
    sellScore := st.sellScore
    buyEvidence := st.buyEvidence
    sellEvidence := st.sellEvidence
    edge, dominantScore, threshold, trendBias, regime
    confidence
    confidenceDisplay := round1 confidence
    priceRaw := price
    currentPrice := round2 price
    entryLow, entryHigh, tp1, tp2, sl
    tp1Pct := round2 (dir * tp1Pct * 100)
    tp2Pct := round2 (dir * tp2Pct * 100)
    slPctOut := round2 (-dir * dynamicSlPct * 100)
    riskReward
    reasons := stF.reasons
    ind
    indicators := displayOf ind }

/-- The previous-bar MACD: recomputed over the closes without the last
one, only when more than 30 closes are available. -/
def prevMacdOf (closes : List ℚ) : MacdResult :=
  if 30 < closes.length then macd closes.dropLast else ⟨none, none, none⟩

/-- JS `generateSignal(ohlcv, signalType, riskTolerance)`. Returns
`none` exactly when the source throws: at the target destructuring
when `signalType` names an inherited `Object.prototype` member (see
`targetPcts`), or at `price.toFixed(2)` when `ohlcv` is empty (so
`price` is `undefined`). -/
def generateSignalFull (sqrtFn : ℚ → ℚ) (ohlcv : List Candle)
    (signalType riskTolerance : String) : Option FullResult :=
  let closes := ohlcv.map (·.close)
  let ind := analyzeIndicators sqrtFn ohlcv
  match targetPcts signalType, ind.currentPrice with
  | none, _ => none
  | some _, none => none
  | some _, some price =>
    some (mkSignal ind (prevMacdOf closes) signalType riskTolerance price)

/-- JS `| 0`: wrap an integer to signed 32-bit two's complement. -/
def jsToInt32 (n : ℤ) : ℤ := (n + 2 ^ 31) % 2 ^ 32 - 2 ^ 31

/-- One seed update of the demo-data hash:
`seed = ((seed << 5) - seed + charCode) | 0` (the shift itself is a
32-bit operation). -/
def hashStep (seed : ℤ) (code : ℕ) : ℤ :=
  jsToInt32 (jsToInt32 (seed * 32) - seed + code)

/-- The hash seed from `symbol + timeframe` character codes. -/
def seedFromString (s : String) : ℤ :=
  s.data.foldl (fun acc ch => hashStep acc ch.toNat) 0

/-- One step of the linear congruential generator:
`seed = (seed * 16807) % 2147483647` with the JS remainder (sign of the
dividend, `Int.tmod`), and the sample `(seed & 0x7fffffff) / 2147483647`. -/
def lcgNext (seed : ℤ) : ℤ × ℚ :=
  let s := Int.tmod (seed * 16807) 2147483647
  (s, ((s % 2 ^ 31 : ℤ) : ℚ) / 2147483647)

/-- Base demo prices per symbol (50000 for unknown symbols). -/
def basePriceOf (symbol : String) : ℚ :=
  if symbol = "BTCUSDT" then 96500
  else if symbol = "ETHUSDT" then 2700
  else if symbol = "SOLUSDT" then 195
  else if symbol = "BNBUSDT" then 640
  else if symbol = "XRPUSDT" then 2.65
  else if symbol = "ADAUSDT" then 0.78
  else if symbol = "AVAXUSDT" then 36
  else if symbol = "DOGEUSDT" then 0.26
  else 50000

/-- Millisecond interval per timeframe (default 4h). -/
def intervalMsOf (timeframe : String) : ℤ :=
  if timeframe = "15m" then 900000
  else if timeframe = "1h" then 3600000
  else if timeframe = "4h" then 14400000
  else if timeframe = "1d" then 86400000
  else 14400000

/-- The candle-producing loop of `generateDemoData`: five LCG samples
per candle (change, high pad, low pad, close position, volume). -/
def demoLoop (volatility trend : ℚ) (intervalMs : ℤ) :
    ℕ → ℤ → ℤ → ℚ → List Candle
  | 0, _, _, _ => []
  | n + 1, seed, ts, price =>
    let s1r1 := lcgNext seed
    let change := (s1r1.2 - 0.5 + trend * 0.002) * volatility
    let price1 := price * (1 + change)
    let s2r2 := lcgNext s1r1.1
    let high := price1 * (1 + s2r2.2 * volatility * 0.5)
    let s3r3 := lcgNext s2r2.1
    let low := price1 * (1 - s3r3.2 * volatility * 0.5)
    let s4r4 := lcgNext s3r3.1
    let close := low + s4r4.2 * (high - low)
    let s5r5 := lcgNext s4r4.1
    let volume := 100000 + s5r5.2 * 400000
    { timestamp := ts, open_ := price1, high, low, close, volume } ::
      demoLoop volatility trend intervalMs n s5r5.1 (ts + intervalMs) close

/-- JS `generateDemoData(symbol, timeframe, limit)`. The wall clock
`Date.now()` is the explicit `now` argument; the first candle timestamp
is `now - limit * intervalMs`. -/
def generateDemoData (symbol timeframe : String) (limit : ℕ) (now : ℤ) : List Candle :=
  let price0 := basePriceOf symbol
  let seed0 := seedFromString (symbol ++ timeframe)
  let s1r1 := lcgNext seed0
  let trend : ℚ := if s1r1.2 > 0.5 then 1 else -1
  let s2r2 := lcgNext s1r1.1
  let volatility := 0.01 + s2r2.2 * 0.02
  let intervalMs := intervalMsOf timeframe
  let ts0 := now - limit * intervalMs
  demoLoop volatility trend intervalMs limit s2r2.1 ts0 price0

/-- The value fields of a candle (everything except the timestamp). -/
def candleValues (c : Candle) : ℚ × ℚ × ℚ × ℚ × ℚ :=
  (c.open_, c.high, c.low, c.close, c.volume)

/-- Bit-by-bit integer floor square root with fixed fuel: correct for
arguments below `2 ^ 3000`, which covers every concrete evaluation in
this file. -/
def isqrtAux (n : ℕ) : ℕ → ℕ → ℕ
  | 0, acc => acc
  | fuel + 1, acc =>
    let cand := acc + 2 ^ fuel
    if cand * cand ≤ n then isqrtAux n fuel cand else isqrtAux n fuel acc

/-- Integer floor square root (fuel 1500 bits). -/
def isqrt (n : ℕ) : ℕ := isqrtAux n 1500 0

/-- A concrete stand-in for `Math.sqrt` on exact rationals: the floor
square root of `num * den` divided by `den` (a lower approximation of
the real square root; `0` on nonpositive input, as every use site in the
source passes a nonnegative variance). -/
def ratSqrt (q : ℚ) : ℚ :=
  if q ≤ 0 then 0 else ((isqrt (q.num.toNat * q.den) : ℚ)) / (q.den : ℚ)

/-! ### Helper lemmas -/

theorem emaRunK_append (k seed : ℚ) (l1 l2 : List ℚ) :
    emaRunK k seed (l1 ++ l2) = emaRunK k (emaRunK k seed l1) l2 := by
  simp [emaRunK, List.foldl_append]

theorem macdStep_foldl_len (l : List ℚ) :
    ∀ st : ℚ × ℚ × List ℚ,
      ((l.foldl macdStep st).2.2).length = st.2.2.length + l.length := by
  induction l with
  | nil => intro st; simp
  | cons p t ih =>
    intro st
    rw [List.foldl_cons, ih]
    simp only [macdStep, List.length_append, List.length_cons, List.length_nil]
    omega

theorem ema_eq_some (prices : List ℚ) (period : ℕ) (h : period ≤ prices.length) :
    ema prices period = some (emaVal prices period) := by
  unfold ema
  rw [if_neg (by omega)]

/-! ### C3: RSI stays in [0, 100] and is 100 on a non-negative window -/

/-- C3: for every price list with at least `period + 1` entries, `rsi`
returns a value in the closed interval `[0, 100]`, and returns exactly
`100` whenever every delta of the trailing window is non-negative. -/
theorem rsi_bounded_and_hundred (prices : List ℚ) (period : ℕ)
    (h : period + 1 ≤ prices.length) :
    ∃ r, rsi prices period = some r ∧ 0 ≤ r ∧ r ≤ 100 ∧
      ((∀ d ∈ rsiDeltas prices period, 0 ≤ d) → r = 100) := by
  unfold rsi
  rw [if_neg (by omega)]
  simp only []
  set deltas := rsiDeltas prices period with hdel
  set G : ℚ := (deltas.map fun d => if d > 0 then d else 0).sum with hG
  set L : ℚ := (deltas.map fun d => if d > 0 then 0 else -d).sum with hL
  have hGnn : 0 ≤ G := by
    refine List.sum_nonneg ?_
    intro x hx
    simp only [List.mem_map] at hx
    obtain ⟨d, _, rfl⟩ := hx
    split <;> [linarith; linarith]
  have hLnn : 0 ≤ L := by
    refine List.sum_nonneg ?_
    intro x hx
    simp only [List.mem_map] at hx
    obtain ⟨d, hd, rfl⟩ := hx
    split
    · linarith
    · next hnot => push_neg at hnot; linarith
  have hLzero : (∀ d ∈ deltas, 0 ≤ d) → L = 0 := by
    intro hall
    rw [hL]
    refine List.sum_eq_zero ?_
    intro x hx
    simp only [List.mem_map] at hx
    obtain ⟨d, hd, rfl⟩ := hx
    have := hall d hd
    split
    · rfl
    · next hnot => push_neg at hnot; have : d = 0 := le_antisymm hnot this; simp [this]
  by_cases hz : L / (period : ℚ) = 0
  · rw [if_pos hz]
    exact ⟨100, rfl, by norm_num, by norm_num, fun _ => rfl⟩
  · rw [if_neg hz]
    have hper : 0 < (period : ℚ) := by
      rcases Nat.eq_zero_or_pos period with h0 | h0
      · exfalso; apply hz; simp [h0]
      · exact_mod_cast h0
    have hLpos : 0 < L / (period : ℚ) := by
      rcases lt_or_eq_of_le (div_nonneg hLnn hper.le) with h' | h'
      · exact h'
      · exact absurd h'.symm hz
    have hGq : 0 ≤ G / (period : ℚ) := div_nonneg hGnn hper.le
    have hq : 0 ≤ G / (period : ℚ) / (L / (period : ℚ)) := div_nonneg hGq hLpos.le
    have h1q : (0:ℚ) < 1 + G / (period : ℚ) / (L / (period : ℚ)) := by linarith
    have hfrac_pos : 0 < 100 / (1 + G / (period : ℚ) / (L / (period : ℚ))) :=
      div_pos (by norm_num) h1q
    have hfrac_le : 100 / (1 + G / (period : ℚ) / (L / (period : ℚ))) ≤ 100 := by
      rw [div_le_iff₀ h1q]
      nlinarith
    refine ⟨_, rfl, by linarith, by linarith, ?_⟩
    intro hall
    exfalso
    exact hz (by rw [hLzero hall, zero_div])

/-- Witness for C3 at a concrete 15-price list. -/
theorem rsi_bounded_and_hundred_witness :
    14 + 1 ≤ ([1, 2, 3, 4, 5, 6, 7, 8, 9, 10, 11, 12, 13, 14, 15] : List ℚ).length ∧
    ∃ r, rsi [1, 2, 3, 4, 5, 6, 7, 8, 9, 10, 11, 12, 13, 14, 15] 14 = some r ∧
      0 ≤ r ∧ r ≤ 100 ∧
      ((∀ d ∈ rsiDeltas [1, 2, 3, 4, 5, 6, 7, 8, 9, 10, 11, 12, 13, 14, 15] 14, 0 ≤ d) → r = 100) :=
  ⟨by decide, rsi_bounded_and_hundred _ 14 (by decide)⟩

/-! ### C4: MACD null thresholds -/

/-- C4: `macd` is all-`null` below 26 closes, and its `signal` and
`histogram` fields are non-`null` exactly when at least 35 closes are
available (at least 9 MACD-history points). -/
theorem macd_null_thresholds (prices : List ℚ) :
    (prices.length < 26 → macd prices = ⟨none, none, none⟩) ∧
    ((macd prices).signal.isSome ↔ 35 ≤ prices.length) ∧
    ((macd prices).histogram.isSome ↔ 35 ≤ prices.length) := by
  by_cases h26 : prices.length < 26
  · refine ⟨fun _ => by unfold macd; rw [if_pos h26], ?_, ?_⟩ <;>
      · unfold macd
        rw [if_pos h26]
        simpa using by omega
  · push_neg at h26
    have h12 := ema_eq_some prices 12 (by omega)
    have h26e := ema_eq_some prices 26 (by omega)
    have hlen : ∀ a b : ℚ,
        ((prices.drop 26).foldl macdStep (a, b, ([] : List ℚ))).2.2.length
          = prices.length - 26 := by
      intro a b
      rw [macdStep_foldl_len]
      simp
    refine ⟨fun hlt => absurd hlt (by omega), ?_, ?_⟩ <;>
      · unfold macd
        rw [if_neg (by omega), h12, h26e]
        simp only [hlen, Option.isSome_map]
        by_cases h9 : 9 ≤ prices.length - 26
        · rw [if_pos h9]
          simpa using by omega
        · rw [if_neg h9]
          simpa using by omega

/-- Witness for C4 at a concrete 35-price list. -/
theorem macd_null_thresholds_witness :
    (([1, 2, 3, 4, 5, 6, 7, 8, 9, 10,
       11, 12, 13, 14, 15, 16, 17, 18, 19, 20,
       21, 22, 23, 24, 25, 26, 27, 28, 29, 30,
       31, 32, 33, 34, 35] : List ℚ).length < 26 →
      macd [1, 2, 3, 4, 5, 6, 7, 8, 9, 10,
            11, 12, 13, 14, 15, 16, 17, 18, 19, 20,
            21, 22, 23, 24, 25, 26, 27, 28, 29, 30,
            31, 32, 33, 34, 35] = ⟨none, none, none⟩) ∧
    ((macd [1, 2, 3, 4, 5, 6, 7, 8, 9, 10,
            11, 12, 13, 14, 15, 16, 17, 18, 19, 20,
            21, 22, 23, 24, 25, 26, 27, 28, 29, 30,
            31, 32, 33, 34, 35]).signal.isSome ↔
      35 ≤ ([1, 2, 3, 4, 5, 6, 7, 8, 9, 10,
             11, 12, 13, 14, 15, 16, 17, 18, 19, 20,
             21, 22, 23, 24, 25, 26, 27, 28, 29, 30,
             31, 32, 33, 34, 35] : List ℚ).length) ∧
    ((macd [1, 2, 3, 4, 5, 6, 7, 8, 9, 10,
            11, 12, 13, 14, 15, 16, 17, 18, 19, 20,
            21, 22, 23, 24, 25, 26, 27, 28, 29, 30,
            31, 32, 33, 34, 35]).histogram.isSome ↔
      35 ≤ ([1, 2, 3, 4, 5, 6, 7, 8, 9, 10,
             11, 12, 13, 14, 15, 16, 17, 18, 19, 20,
             21, 22, 23, 24, 25, 26, 27, 28, 29, 30,
             31, 32, 33, 34, 35] : List ℚ).length) :=
  macd_null_thresholds _

/-! ### C8: EMA equals SMA at the seed point -/

/-- C8: when the price list has exactly `period` entries (`period > 0`),
the EMA seed is the simple average of all of them, so `ema` and `sma`
agree exactly. -/
theorem ema_sma_seed_agree (prices : List ℚ) (period : ℕ)
    (hlen : prices.length = period) (hp : 0 < period) :
    ema prices period = sma prices period := by
  unfold ema sma
  rw [if_neg (by omega), if_neg (by omega)]
  unfold emaVal smaVal emaRunK lastN
  rw [show prices.drop period = [] from by rw [← hlen, List.drop_length],
      show prices.take period = prices from by rw [← hlen, List.take_length],
      show prices.length - period = 0 from by omega, List.drop_zero]
  simp

/-- Witness for C8 at a concrete two-price list. -/
theorem ema_sma_seed_agree_witness :
    ([4, 6] : List ℚ).length = 2 ∧ 0 < 2 ∧ ema [4, 6] 2 = sma [4, 6] 2 :=
  ⟨by decide, by decide, ema_sma_seed_agree [4, 6] 2 (by decide) (by decide)⟩

/-! ### C1, C5, C7: decision, confidence and risk/reward logic -/

theorem mkSignal_decision (ind : IndicatorSet) (pm : MacdResult)
    (sigType riskTol : String) (price : ℚ) :
    ((mkSignal ind pm sigType riskTol price).edge < 0.9 →
      (mkSignal ind pm sigType riskTol price).signal = .HOLD) ∧
    ((mkSignal ind pm sigType riskTol price).signal = .BUY →
      (mkSignal ind pm sigType riskTol price).threshold ≤ (mkSignal ind pm sigType riskTol price).buyScore ∧
      (mkSignal ind pm sigType riskTol price).sellScore < (mkSignal ind pm sigType riskTol price).buyScore ∧
      0.9 ≤ (mkSignal ind pm sigType riskTol price).edge) ∧
    ((mkSignal ind pm sigType riskTol price).signal = .SELL →
      (mkSignal ind pm sigType riskTol price).threshold ≤ (mkSignal ind pm sigType riskTol price).sellScore ∧
      (mkSignal ind pm sigType riskTol price).buyScore < (mkSignal ind pm sigType riskTol price).sellScore ∧
      0.9 ≤ (mkSignal ind pm sigType riskTol price).edge) := by
  simp only [mkSignal]
  split_ifs with h1 h2
  · exact ⟨fun hlt => absurd h1.2.2 (by linarith), fun _ => ⟨h1.1, h1.2.1, h1.2.2⟩,
      fun hs => by simp at hs⟩
  · exact ⟨fun hlt => absurd h2.2.2 (by linarith), fun hs => by simp at hs,
      fun _ => ⟨h2.1, h2.2.1, h2.2.2⟩⟩
  · exact ⟨fun _ => rfl, fun hs => by simp at hs, fun hs => by simp at hs⟩

/-- C1: whenever the final absolute edge `|buyScore - sellScore|` is
below `0.9`, the decision is HOLD regardless of the score magnitudes;
and a BUY (resp. SELL) is returned only when the winning score meets the
threshold, strictly exceeds the other score, and the edge is at least
`0.9`. -/
theorem decision_requires_edge (sqrtFn : ℚ → ℚ) (ohlcv : List Candle)
    (signalType riskTolerance : String) (res : FullResult)
    (h : generateSignalFull sqrtFn ohlcv signalType riskTolerance = some res) :
    (res.edge < 0.9 → res.signal = .HOLD) ∧
    (res.signal = .BUY →
      res.threshold ≤ res.buyScore ∧ res.sellScore < res.buyScore ∧ 0.9 ≤ res.edge) ∧
    (res.signal = .SELL →
      res.threshold ≤ res.sellScore ∧ res.buyScore < res.sellScore ∧ 0.9 ≤ res.edge) := by
  simp only [generateSignalFull] at h
  cases htp : targetPcts signalType with
  | none => rw [htp] at h; simp at h
  | some tpv =>
    rw [htp] at h
    cases hcp : (analyzeIndicators sqrtFn ohlcv).currentPrice with
    | none => rw [hcp] at h; simp at h
    | some price =>
      rw [hcp] at h
      simp only [Option.some.injEq] at h
      subst h
      exact mkSignal_decision ..

/-- Witness for C1 on a concrete one-candle input. -/
theorem decision_requires_edge_witness :
    generateSignalFull (fun _ => 0) [⟨0, 1, 1, 1, 1, 1⟩] "swing" "moderate" =
      some (mkSignal (analyzeIndicators (fun _ => 0) [⟨0, 1, 1, 1, 1, 1⟩])
        (prevMacdOf [1]) "swing" "moderate" 1) ∧
    (((mkSignal (analyzeIndicators (fun _ => 0) [⟨0, 1, 1, 1, 1, 1⟩])
        (prevMacdOf [1]) "swing" "moderate" 1).edge < 0.9 →
      (mkSignal (analyzeIndicators (fun _ => 0) [⟨0, 1, 1, 1, 1, 1⟩])
        (prevMacdOf [1]) "swing" "moderate" 1).signal = .HOLD)) :=
  ⟨by rfl, (decision_requires_edge (fun _ => 0) [⟨0, 1, 1, 1, 1, 1⟩] "swing" "moderate" _ rfl).1⟩

theorem mkSignal_confidence (ind : IndicatorSet) (pm : MacdResult)
    (sigType riskTol : String) (price : ℚ) :
    (mkSignal ind pm sigType riskTol price).confidence =
      (if (mkSignal ind pm sigType riskTol price).signal = .HOLD then
        clamp (42 + (mkSignal ind pm sigType riskTol price).edge * 6) 40 65
      else
        clamp ((mkSignal ind pm sigType riskTol price).dominantScore * 13 +
          (mkSignal ind pm sigType riskTol price).edge * 16 +
          ((if (mkSignal ind pm sigType riskTol price).signal = .BUY then
              (mkSignal ind pm sigType riskTol price).buyEvidence
            else (mkSignal ind pm sigType riskTol price).sellEvidence : ℕ) : ℚ) * 2) 55 95) ∧
    (mkSignal ind pm sigType riskTol price).confidenceDisplay =
      round1 (mkSignal ind pm sigType riskTol price).confidence := by
  simp only [mkSignal]
  exact ⟨trivial, trivial⟩

/-- C5: the (pre-display-rounding) confidence equals
`clamp(42 + edge*6, 40, 65)` for HOLD and
`clamp(dominantScore*13 + edge*16 + evidenceCount*2, 55, 95)` for
BUY/SELL, with `evidenceCount` the winning side's rule-trigger count;
the displayed value is that confidence rounded to 1 decimal. -/
theorem confidence_formula (sqrtFn : ℚ → ℚ) (ohlcv : List Candle)
    (signalType riskTolerance : String) (res : FullResult)
    (h : generateSignalFull sqrtFn ohlcv signalType riskTolerance = some res) :
    res.confidence =
      (if res.signal = .HOLD then clamp (42 + res.edge * 6) 40 65
       else clamp (res.dominantScore * 13 + res.edge * 16 +
         ((if res.signal = .BUY then res.buyEvidence else res.sellEvidence : ℕ) : ℚ) * 2) 55 95) ∧
    res.confidenceDisplay = round1 res.confidence := by
  simp only [generateSignalFull] at h
  cases htp : targetPcts signalType with
  | none => rw [htp] at h; simp at h
  | some tpv =>
    rw [htp] at h
    cases hcp : (analyzeIndicators sqrtFn ohlcv).currentPrice with
    | none => rw [hcp] at h; simp at h
    | some price =>
      rw [hcp] at h
      simp only [Option.some.injEq] at h
      subst h
      exact mkSignal_confidence ..

/-- Witness for C5 on a concrete one-candle input. -/
theorem confidence_formula_witness :
    (mkSignal (analyzeIndicators (fun _ => 0) [⟨0, 1, 1, 1, 1, 1⟩])
      (prevMacdOf [1]) "swing" "moderate" 1).confidence =
      (if (mkSignal (analyzeIndicators (fun _ => 0) [⟨0, 1, 1, 1, 1, 1⟩])
            (prevMacdOf [1]) "swing" "moderate" 1).signal = .HOLD then
        clamp (42 + (mkSignal (analyzeIndicators (fun _ => 0) [⟨0, 1, 1, 1, 1, 1⟩])
          (prevMacdOf [1]) "swing" "moderate" 1).edge * 6) 40 65
      else
        clamp ((mkSignal (analyzeIndicators (fun _ => 0) [⟨0, 1, 1, 1, 1, 1⟩])
            (prevMacdOf [1]) "swing" "moderate" 1).dominantScore * 13 +
          (mkSignal (analyzeIndicators (fun _ => 0) [⟨0, 1, 1, 1, 1, 1⟩])
            (prevMacdOf [1]) "swing" "moderate" 1).edge * 16 +
          ((if (mkSignal (analyzeIndicators (fun _ => 0) [⟨0, 1, 1, 1, 1, 1⟩])
                (prevMacdOf [1]) "swing" "moderate" 1).signal = .BUY then
              (mkSignal (analyzeIndicators (fun _ => 0) [⟨0, 1, 1, 1, 1, 1⟩])
                (prevMacdOf [1]) "swing" "moderate" 1).buyEvidence
            else (mkSignal (analyzeIndicators (fun _ => 0) [⟨0, 1, 1, 1, 1, 1⟩])
                (prevMacdOf [1]) "swing" "moderate" 1).sellEvidence : ℕ) : ℚ) * 2) 55 95) :=
  (confidence_formula (fun _ => 0) [⟨0, 1, 1, 1, 1, 1⟩] "swing" "moderate" _ rfl).1

theorem mkSignal_riskReward (ind : IndicatorSet) (pm : MacdResult)
    (sigType riskTol : String) (price : ℚ) :
    (mkSignal ind pm sigType riskTol price).riskReward =
      (if (mkSignal ind pm sigType riskTol price).signal = .HOLD then 0
       else round2 (|(mkSignal ind pm sigType riskTol price).tp2 -
              (mkSignal ind pm sigType riskTol price).priceRaw| /
            |(mkSignal ind pm sigType riskTol price).priceRaw -
              (mkSignal ind pm sigType riskTol price).sl|)) := by
  simp only [mkSignal]
  split_ifs <;> simp_all

/-- C7: `riskReward` equals `|tp2 - price| / |price - sl|` rounded to 2
decimals for BUY/SELL and is exactly 0 for HOLD; at price 100, tp2 108
and stop 98.5 the formula yields 5.33. -/
theorem riskReward_formula (sqrtFn : ℚ → ℚ) (ohlcv : List Candle)
    (signalType riskTolerance : String) (res : FullResult)
    (h : generateSignalFull sqrtFn ohlcv signalType riskTolerance = some res) :
    (res.riskReward =
      if res.signal = .HOLD then 0
      else round2 (|res.tp2 - res.priceRaw| / |res.priceRaw - res.sl|)) ∧
    round2 (|(108 : ℚ) - 100| / |(100 : ℚ) - 98.5|) = 5.33 := by
  refine ⟨?_, by decide⟩
  simp only [generateSignalFull] at h
  cases htp : targetPcts signalType with
  | none => rw [htp] at h; simp at h
  | some tpv =>
    rw [htp] at h
    cases hcp : (analyzeIndicators sqrtFn ohlcv).currentPrice with
    | none => rw [hcp] at h; simp at h
    | some price =>
      rw [hcp] at h
      simp only [Option.some.injEq] at h
      subst h
      exact mkSignal_riskReward ..

/-- Witness for C7 on a concrete one-candle input. -/
theorem riskReward_formula_witness :
    ((mkSignal (analyzeIndicators (fun _ => 0) [⟨0, 1, 1, 1, 1, 1⟩])
        (prevMacdOf [1]) "swing" "moderate" 1).riskReward =
      if (mkSignal (analyzeIndicators (fun _ => 0) [⟨0, 1, 1, 1, 1, 1⟩])
            (prevMacdOf [1]) "swing" "moderate" 1).signal = .HOLD then 0
      else round2 (|(mkSignal (analyzeIndicators (fun _ => 0) [⟨0, 1, 1, 1, 1, 1⟩])
              (prevMacdOf [1]) "swing" "moderate" 1).tp2 -
            (mkSignal (analyzeIndicators (fun _ => 0) [⟨0, 1, 1, 1, 1, 1⟩])
              (prevMacdOf [1]) "swing" "moderate" 1).priceRaw| /
          |(mkSignal (analyzeIndicators (fun _ => 0) [⟨0, 1, 1, 1, 1, 1⟩])
              (prevMacdOf [1]) "swing" "moderate" 1).priceRaw -
            (mkSignal (analyzeIndicators (fun _ => 0) [⟨0, 1, 1, 1, 1, 1⟩])
              (prevMacdOf [1]) "swing" "moderate" 1).sl|)) ∧
    round2 (|(108 : ℚ) - 100| / |(100 : ℚ) - 98.5|) = 5.33 :=
  riskReward_formula (fun _ => 0) [⟨0, 1, 1, 1, 1, 1⟩] "swing" "moderate" _ rfl

/-! ### C6: the scores stay non-negative through the whole pass -/

theorem rsiBlock_nonneg (regime : Regime) (rsiVal : Option ℚ) (st : ScoreState)
    (hb : 0 ≤ st.buyScore) (hs : 0 ≤ st.sellScore) :
    0 ≤ (rsiBlock regime rsiVal st).buyScore ∧ 0 ≤ (rsiBlock regime rsiVal st).sellScore := by
  unfold rsiBlock addBuy addSell pushReason
  cases rsiVal with
  | none => exact ⟨hb, hs⟩
  | some r =>
    cases regime <;> dsimp only [] <;> split_ifs <;>
      refine ⟨?_, ?_⟩ <;> dsimp only [] <;> linarith

theorem macdBlock_nonneg (macdVal pm : MacdResult) (st : ScoreState)
    (hb : 0 ≤ st.buyScore) (hs : 0 ≤ st.sellScore) :
    0 ≤ (macdBlock macdVal pm st).buyScore ∧ 0 ≤ (macdBlock macdVal pm st).sellScore := by
  unfold macdBlock addBuy addSell pushReason
  rcases macdVal with ⟨l, sg, hi⟩
  cases hi <;> cases l <;> cases sg <;> dsimp only [] <;> try exact ⟨hb, hs⟩
  all_goals
    split_ifs <;> try exact ⟨hb, hs⟩
  all_goals
    try rcases pm.histogram with _ | hp
  all_goals
    dsimp only [] <;> try split_ifs
  all_goals
    refine ⟨?_, ?_⟩ <;> dsimp only [] <;> linarith

theorem bbBlock_nonneg (regime : Regime) (price : ℚ) (bb : BBands) (st : ScoreState)
    (hb : 0 ≤ st.buyScore) (hs : 0 ≤ st.sellScore) :
    0 ≤ (bbBlock regime price bb st).buyScore ∧ 0 ≤ (bbBlock regime price bb st).sellScore := by
  unfold bbBlock addBuy addSell pushReason
  rcases bb with ⟨u, m, l⟩
  cases l <;> cases m <;> cases u <;> dsimp only [] <;> try exact ⟨hb, hs⟩
  split_ifs <;> refine ⟨?_, ?_⟩ <;> dsimp only [] <;> nlinarith

theorem emaBlock_nonneg (price : ℚ) (e20 e50 : Option ℚ) (st : ScoreState)
    (hb : 0 ≤ st.buyScore) (hs : 0 ≤ st.sellScore) :
    0 ≤ (emaBlock price e20 e50 st).buyScore ∧ 0 ≤ (emaBlock price e20 e50 st).sellScore := by
  unfold emaBlock addBuy addSell pushReason
  cases e20 <;> cases e50 <;> dsimp only [] <;> try exact ⟨hb, hs⟩
  split_ifs <;> refine ⟨?_, ?_⟩ <;> dsimp only [] <;> linarith

theorem sma200Block_nonneg (price : ℚ) (s200 : Option ℚ) (st : ScoreState)
    (hb : 0 ≤ st.buyScore) (hs : 0 ≤ st.sellScore) :
    0 ≤ (sma200Block price s200 st).buyScore ∧ 0 ≤ (sma200Block price s200 st).sellScore := by
  unfold sma200Block addBuy addSell
  cases s200 <;> dsimp only [] <;> try exact ⟨hb, hs⟩
  split_ifs <;> refine ⟨?_, ?_⟩ <;> dsimp only [] <;> linarith

theorem momentumBlock_nonneg (m3 m10 : Option ℚ) (st : ScoreState)
    (hb : 0 ≤ st.buyScore) (hs : 0 ≤ st.sellScore) :
    0 ≤ (momentumBlock m3 m10 st).buyScore ∧ 0 ≤ (momentumBlock m3 m10 st).sellScore := by
  unfold momentumBlock addBuy addSell pushReason
  cases m3 <;> cases m10 <;> dsimp only [] <;> try exact ⟨hb, hs⟩
  split_ifs <;> refine ⟨?_, ?_⟩ <;> dsimp only [] <;> linarith

theorem volumeBlock_nonneg (vr : Option ℚ) (st : ScoreState)
    (hb : 0 ≤ st.buyScore) (hs : 0 ≤ st.sellScore) :
    0 ≤ (volumeBlock vr st).buyScore ∧ 0 ≤ (volumeBlock vr st).sellScore := by
  unfold volumeBlock pushReason
  cases vr <;> dsimp only [] <;> try exact ⟨hb, hs⟩
  split_ifs <;> refine ⟨?_, ?_⟩ <;> dsimp only [] <;> nlinarith

theorem contradictionBlock_nonneg (st : ScoreState)
    (hb : 0 ≤ st.buyScore) (hs : 0 ≤ st.sellScore) :
    0 ≤ (contradictionBlock st).buyScore ∧ 0 ≤ (contradictionBlock st).sellScore := by
  unfold contradictionBlock pushReason
  split_ifs with hpos
  · refine ⟨?_, ?_⟩ <;> dsimp only []
    · nlinarith [min_le_left st.buyScore st.sellScore, hpos.1]
    · nlinarith [min_le_right st.buyScore st.sellScore, hpos.2]
  · exact ⟨hb, hs⟩

theorem scoreStates_all_nonneg (regime : Regime) (price : ℚ) (ind : IndicatorSet)
    (pm : MacdResult) :
    (∀ st ∈ scoreStates regime price ind pm, 0 ≤ st.buyScore ∧ 0 ≤ st.sellScore) ∧
    (scoreStates regime price ind pm).getLast? = some (scorePass regime price ind pm) := by
  have h0 : 0 ≤ (initialScore regime).buyScore ∧ 0 ≤ (initialScore regime).sellScore := by
    unfold initialScore
    exact ⟨le_refl 0, le_refl 0⟩
  have h1 := rsiBlock_nonneg regime ind.rsi _ h0.1 h0.2
  have h2 := macdBlock_nonneg ind.macd pm _ h1.1 h1.2
  have h3 := bbBlock_nonneg regime price ind.bollingerBands _ h2.1 h2.2
  have h4 := emaBlock_nonneg price ind.ema20 ind.ema50 _ h3.1 h3.2
  have h5 := sma200Block_nonneg price ind.sma200 _ h4.1 h4.2
  have h6 := momentumBlock_nonneg ind.momentum3 ind.momentum10 _ h5.1 h5.2
  have h7 := volumeBlock_nonneg ind.volumeRatioVal _ h6.1 h6.2
  have h8 := contradictionBlock_nonneg _ h7.1 h7.2
  constructor
  · intro st hst
    simp only [scoreStates, List.mem_cons, List.not_mem_nil, or_false] at hst
    rcases hst with rfl | rfl | rfl | rfl | rfl | rfl | rfl | rfl | rfl
    · exact h0
    · exact h1
    · exact h2
    · exact h3
    · exact h4
    · exact h5
    · exact h6
    · exact h7
    · exact h8
  · rfl

/-- The final state of the pass has non-negative scores. -/
theorem scorePass_nonneg (regime : Regime) (price : ℚ) (ind : IndicatorSet)
    (pm : MacdResult) :
    0 ≤ (scorePass regime price ind pm).buyScore ∧
    0 ≤ (scorePass regime price ind pm).sellScore := by
  have h0 : 0 ≤ (initialScore regime).buyScore ∧ 0 ≤ (initialScore regime).sellScore := by
    unfold initialScore
    exact ⟨le_refl 0, le_refl 0⟩
  have h1 := rsiBlock_nonneg regime ind.rsi _ h0.1 h0.2
  have h2 := macdBlock_nonneg ind.macd pm _ h1.1 h1.2
  have h3 := bbBlock_nonneg regime price ind.bollingerBands _ h2.1 h2.2
  have h4 := emaBlock_nonneg price ind.ema20 ind.ema50 _ h3.1 h3.2
  have h5 := sma200Block_nonneg price ind.sma200 _ h4.1 h4.2
  have h6 := momentumBlock_nonneg ind.momentum3 ind.momentum10 _ h5.1 h5.2
  have h7 := volumeBlock_nonneg ind.volumeRatioVal _ h6.1 h6.2
  exact contradictionBlock_nonneg _ h7.1 h7.2

/-- C6: along the scoring pass of `generateSignal` (before and after
every rule block, including the contradiction adjustment that subtracts
`0.35 * min(buyScore, sellScore)` from both), `buyScore` and `sellScore`
are non-negative, and so are the final scores of the returned result. -/
theorem scores_nonneg (sqrtFn : ℚ → ℚ) (ohlcv : List Candle)
    (signalType riskTolerance : String) (res : FullResult)
    (h : generateSignalFull sqrtFn ohlcv signalType riskTolerance = some res) :
    (∀ st ∈ scoreStates res.regime res.priceRaw res.ind
        (prevMacdOf (ohlcv.map (·.close))), 0 ≤ st.buyScore ∧ 0 ≤ st.sellScore) ∧
    (scoreStates res.regime res.priceRaw res.ind
        (prevMacdOf (ohlcv.map (·.close)))).getLast? =
      some (scorePass res.regime res.priceRaw res.ind
        (prevMacdOf (ohlcv.map (·.close)))) ∧
    0 ≤ res.buyScore ∧ 0 ≤ res.sellScore := by
  simp only [generateSignalFull] at h
  cases htp : targetPcts signalType with
  | none => rw [htp] at h; simp at h
  | some tpv =>
    rw [htp] at h
    cases hcp : (analyzeIndicators sqrtFn ohlcv).currentPrice with
    | none => rw [hcp] at h; simp at h
    | some price =>
      rw [hcp] at h
      simp only [Option.some.injEq] at h
      subst h
      simp only [mkSignal]
      exact ⟨(scoreStates_all_nonneg _ _ _ _).1, (scoreStates_all_nonneg _ _ _ _).2,
        (scorePass_nonneg _ _ _ _).1, (scorePass_nonneg _ _ _ _).2⟩

/-- Witness for C6 on a concrete one-candle input. -/
theorem scores_nonneg_witness :
    0 ≤ (mkSignal (analyzeIndicators (fun _ => 0) [⟨0, 1, 1, 1, 1, 1⟩])
        (prevMacdOf [1]) "swing" "moderate" 1).buyScore ∧
    0 ≤ (mkSignal (analyzeIndicators (fun _ => 0) [⟨0, 1, 1, 1, 1, 1⟩])
        (prevMacdOf [1]) "swing" "moderate" 1).sellScore :=
  ⟨(scores_nonneg (fun _ => 0) [⟨0, 1, 1, 1, 1, 1⟩] "swing" "moderate" _ rfl).2.2.1,
   (scores_nonneg (fun _ => 0) [⟨0, 1, 1, 1, 1, 1⟩] "swing" "moderate" _ rfl).2.2.2⟩

/-! ### C10: totality on non-empty input, null indicators when short -/

theorem rsi_none_short (prices : List ℚ) (h : prices.length < 15) :
    rsi prices = none := by
  unfold rsi
  rw [if_pos (by omega)]

theorem ema_none_short (prices : List ℚ) (period : ℕ) (h : prices.length < period) :
    ema prices period = none := by
  unfold ema
  rw [if_pos h]

theorem macd_all_none_short (prices : List ℚ) (h : prices.length < 26) :
    macd prices = ⟨none, none, none⟩ := by
  unfold macd
  rw [if_pos h]

theorem macd_signal_none_short (prices : List ℚ) (h : prices.length < 35) :
    (macd prices).signal = none ∧ (macd prices).histogram = none := by
  by_cases h26 : prices.length < 26
  · rw [macd_all_none_short prices h26]
    exact ⟨rfl, rfl⟩
  · push_neg at h26
    unfold macd
    rw [if_neg (by omega), ema_eq_some prices 12 (by omega), ema_eq_some prices 26 (by omega)]
    have hlen : ∀ a b : ℚ,
        ((prices.drop 26).foldl macdStep (a, b, ([] : List ℚ))).2.2.length
          = prices.length - 26 := by
      intro a b
      rw [macdStep_foldl_len]
      simp
    simp only [hlen]
    rw [if_neg (by omega)]
    exact ⟨rfl, rfl⟩

theorem bollingerBands_none_short (sqrtFn : ℚ → ℚ) (prices : List ℚ)
    (h : prices.length < 20) : bollingerBands sqrtFn prices = ⟨none, none, none⟩ := by
  unfold bollingerBands
  rw [if_pos h]

theorem momentum_none_short (prices : List ℚ) (period : ℕ) (h : prices.length ≤ period) :
    momentum prices period = none := by
  unfold momentum
  rw [if_pos h]

theorem atr_none_short (ohlcv : List Candle) (h : ohlcv.length < 15) :
    atr ohlcv = none := by
  unfold atr
  rw [if_pos (by omega)]

theorem returnsOf_length (closes : List ℚ) :
    (returnsOf closes).length = closes.length - 1 := by
  unfold returnsOf
  rw [List.length_zipWith, List.length_drop]
  omega

theorem stdDev_none_empty (sqrtFn : ℚ → ℚ) (values : List ℚ) (h : values.length = 0) :
    stdDev sqrtFn values = none := by
  unfold stdDev
  rw [if_pos h]

/-- Looking up any string that is neither an own key of the `targets`
literal nor an inherited `Object.prototype` member succeeds (with the
swing default for a miss). -/
theorem targetPcts_some_of_not_proto (signalType : String)
    (h : signalType ∉ objectProtoKeys) :
    ∃ tp, targetPcts signalType = some tp := by
  unfold targetPcts
  by_cases h1 : signalType = "scalp"
  · rw [if_pos h1]; exact ⟨_, rfl⟩
  · rw [if_neg h1]
    by_cases h2 : signalType = "swing"
    · rw [if_pos h2]; exact ⟨_, rfl⟩
    · rw [if_neg h2]
      by_cases h3 : signalType = "position"
      · rw [if_pos h3]; exact ⟨_, rfl⟩
      · rw [if_neg h3, if_neg h]
        exact ⟨_, rfl⟩

/-- C10 (amended): for every non-empty candle list, arbitrary
risk-tolerance string, and any signal-type string that does not name an
inherited `Object.prototype` member (at those twelve keys the source
throws a `TypeError` destructuring `targets[signalType]`, see the
counterexample), `generateSignal` returns a complete result, and each
indicator field of the returned object is `null` whenever the input is
too short for it. -/
theorem total_on_nonempty (sqrtFn : ℚ → ℚ) (ohlcv : List Candle)
    (signalType riskTolerance : String) (hne : ohlcv ≠ [])
    (hst : signalType ∉ objectProtoKeys) :
    ∃ res, generateSignalFull sqrtFn ohlcv signalType riskTolerance = some res ∧
      (ohlcv.length < 15 → res.indicators.rsi = none) ∧
      (ohlcv.length < 26 → res.indicators.macd = ⟨none, none, none⟩) ∧
      (ohlcv.length < 35 →
        res.indicators.macd.signal = none ∧ res.indicators.macd.histogram = none) ∧
      (ohlcv.length < 20 →
        res.indicators.bollingerBands = ⟨none, none, none⟩ ∧ res.indicators.ema20 = none) ∧
      (ohlcv.length < 50 → res.indicators.ema50 = none) ∧
      (ohlcv.length < 200 → res.indicators.sma200 = none) ∧
      (ohlcv.length < 15 → res.indicators.atr14 = none) ∧
      (ohlcv.length ≤ 3 → res.indicators.momentum3 = none) ∧
      (ohlcv.length ≤ 10 → res.indicators.momentum10 = none) ∧
      (ohlcv.length ≤ 1 → res.indicators.volatility20 = none) := by
  have hlm : (ohlcv.map (·.close)).length = ohlcv.length := List.length_map ..
  have hcl : ohlcv.map (·.close) ≠ [] := by
    intro hx
    exact hne (List.map_eq_nil_iff.mp hx)
  obtain ⟨price, hp⟩ := Option.isSome_iff_exists.mp (List.getLast?_isSome.mpr hcl)
  have hcp : (analyzeIndicators sqrtFn ohlcv).currentPrice = some price := hp
  refine ⟨mkSignal (analyzeIndicators sqrtFn ohlcv)
      (prevMacdOf (ohlcv.map (·.close))) signalType riskTolerance price, ?_, ?_⟩
  · obtain ⟨tp, htp⟩ := targetPcts_some_of_not_proto signalType hst
    simp only [generateSignalFull]
    rw [htp, hcp]
  · have hind : (mkSignal (analyzeIndicators sqrtFn ohlcv)
        (prevMacdOf (ohlcv.map (·.close))) signalType riskTolerance price).indicators =
        displayOf (analyzeIndicators sqrtFn ohlcv) := rfl
    rw [hind]
    have hrsi : (analyzeIndicators sqrtFn ohlcv).rsi = rsi (ohlcv.map (·.close)) := rfl
    have hmacd : (analyzeIndicators sqrtFn ohlcv).macd = macd (ohlcv.map (·.close)) := rfl
    have hbb : (analyzeIndicators sqrtFn ohlcv).bollingerBands =
        bollingerBands sqrtFn (ohlcv.map (·.close)) := rfl
    have he20 : (analyzeIndicators sqrtFn ohlcv).ema20 = ema (ohlcv.map (·.close)) 20 := rfl
    have he50 : (analyzeIndicators sqrtFn ohlcv).ema50 = ema (ohlcv.map (·.close)) 50 := rfl
    have hs200 : (analyzeIndicators sqrtFn ohlcv).sma200 =
        (if 200 ≤ (ohlcv.map (·.close)).length then sma (ohlcv.map (·.close)) 200 else none) := rfl
    have hatr : (analyzeIndicators sqrtFn ohlcv).atr14 = atr ohlcv 14 := rfl
    have hm3 : (analyzeIndicators sqrtFn ohlcv).momentum3 =
        momentum (ohlcv.map (·.close)) 3 := rfl
    have hm10 : (analyzeIndicators sqrtFn ohlcv).momentum10 =
        momentum (ohlcv.map (·.close)) 10 := rfl
    have hv20 : (analyzeIndicators sqrtFn ohlcv).volatility20 =
        stdDev sqrtFn ((returnsOf (ohlcv.map (·.close))).drop
          ((returnsOf (ohlcv.map (·.close))).length - 20)) := rfl
    unfold displayOf
    refine ⟨?_, ?_, ?_, ?_, ?_, ?_, ?_, ?_, ?_, ?_⟩
    · intro hl
      rw [hrsi, rsi_none_short (ohlcv.map (·.close)) (by rw [hlm]; omega)]
      rfl
    · intro hl
      rw [hmacd, macd_all_none_short (ohlcv.map (·.close)) (by rw [hlm]; omega)]
      rfl
    · intro hl
      obtain ⟨h1, h2⟩ := macd_signal_none_short (ohlcv.map (·.close)) (by rw [hlm]; omega)
      dsimp only []
      rw [hmacd, h1, h2]
      exact ⟨rfl, rfl⟩
    · intro hl
      rw [hbb, bollingerBands_none_short sqrtFn (ohlcv.map (·.close)) (by rw [hlm]; omega),
        he20, ema_none_short (ohlcv.map (·.close)) 20 (by rw [hlm]; omega)]
      exact ⟨rfl, rfl⟩
    · intro hl
      rw [he50, ema_none_short (ohlcv.map (·.close)) 50 (by rw [hlm]; omega)]
      rfl
    · intro hl
      rw [hs200, if_neg (by rw [hlm]; omega)]
      rfl
    · intro hl
      rw [hatr, atr_none_short ohlcv (by omega)]
      rfl
    · intro hl
      rw [hm3, momentum_none_short (ohlcv.map (·.close)) 3 (by rw [hlm]; omega)]
      rfl
    · intro hl
      rw [hm10, momentum_none_short (ohlcv.map (·.close)) 10 (by rw [hlm]; omega)]
      rfl
    · intro hl
      have hr0 : ((returnsOf (ohlcv.map (·.close))).drop
          ((returnsOf (ohlcv.map (·.close))).length - 20)).length = 0 := by
        rw [List.length_drop, returnsOf_length]
        omega
      rw [hv20, stdDev_none_empty sqrtFn _ hr0]
      rfl

/-- Witness for C10 (amended) on a concrete one-candle input. -/
theorem total_on_nonempty_witness :
    ([⟨0, 1, 1, 1, 1, 1⟩] : List Candle) ≠ [] ∧
    "scalp" ∉ objectProtoKeys ∧
    ∃ res, generateSignalFull (fun _ => 0) [⟨0, 1, 1, 1, 1, 1⟩] "scalp" "wild" = some res ∧
      (([⟨0, 1, 1, 1, 1, 1⟩] : List Candle).length < 15 → res.indicators.rsi = none) ∧
      (([⟨0, 1, 1, 1, 1, 1⟩] : List Candle).length < 26 →
        res.indicators.macd = ⟨none, none, none⟩) ∧
      (([⟨0, 1, 1, 1, 1, 1⟩] : List Candle).length < 35 →
        res.indicators.macd.signal = none ∧ res.indicators.macd.histogram = none) ∧
      (([⟨0, 1, 1, 1, 1, 1⟩] : List Candle).length < 20 →
        res.indicators.bollingerBands = ⟨none, none, none⟩ ∧ res.indicators.ema20 = none) ∧
      (([⟨0, 1, 1, 1, 1, 1⟩] : List Candle).length < 50 → res.indicators.ema50 = none) ∧
      (([⟨0, 1, 1, 1, 1, 1⟩] : List Candle).length < 200 → res.indicators.sma200 = none) ∧
      (([⟨0, 1, 1, 1, 1, 1⟩] : List Candle).length < 15 → res.indicators.atr14 = none) ∧
      (([⟨0, 1, 1, 1, 1, 1⟩] : List Candle).length ≤ 3 → res.indicators.momentum3 = none) ∧
      (([⟨0, 1, 1, 1, 1, 1⟩] : List Candle).length ≤ 10 → res.indicators.momentum10 = none) ∧
      (([⟨0, 1, 1, 1, 1, 1⟩] : List Candle).length ≤ 1 → res.indicators.volatility20 = none) :=
  ⟨by decide, by decide,
    total_on_nonempty (fun _ => 0) [⟨0, 1, 1, 1, 1, 1⟩] "scalp" "wild" (by decide) (by decide)⟩

/-- Counterexample to C10 as stated: a non-empty (one-candle) input with
`signalType = "constructor"` yields no result at all. In the source,
`targets["constructor"]` finds the inherited constructor function on the
prototype chain, so the `|| targets.swing` default is skipped and the
array destructuring of the non-iterable function throws a `TypeError` —
`generateSignal` throws rather than returning a `Signal` object. -/
theorem proto_signalType_no_result :
    ([⟨0, 1, 1, 1, 1, 1⟩] : List Candle) ≠ [] ∧
    generateSignalFull (fun _ => 0) [⟨0, 1, 1, 1, 1, 1⟩] "constructor" "moderate" = none :=
  ⟨by decide, rfl⟩

/-! ### C2: determinism of the synthetic generator -/

theorem demoLoop_values_ts (vol trend : ℚ) (i : ℤ) :
    ∀ (n : ℕ) (seed ts₁ ts₂ : ℤ) (price : ℚ),
      (demoLoop vol trend i n seed ts₁ price).map candleValues =
        (demoLoop vol trend i n seed ts₂ price).map candleValues := by
  intro n
  induction n with
  | zero => intros; rfl
  | succ m ih =>
    intro seed ts₁ ts₂ price
    simp only [demoLoop, List.map_cons]
    congr 1
    exact ih _ _ _ _

/-- C2 (corrected): the synthetic generator is deterministic in all
candle value fields (`open/high/low/close/volume`) given `symbol`,
`timeframe` and `limit`; the `timestamp` fields additionally depend on
the wall clock at the moment of the call, and the full candle sequences
coincide when the two invocations observe the same clock value. -/
theorem demoData_deterministic_values (symbol timeframe : String) (limit : ℕ)
    (now₁ now₂ : ℤ) :
    (generateDemoData symbol timeframe limit now₁).map candleValues =
      (generateDemoData symbol timeframe limit now₂).map candleValues ∧
    (now₁ = now₂ →
      generateDemoData symbol timeframe limit now₁ =
        generateDemoData symbol timeframe limit now₂) := by
  constructor
  · unfold generateDemoData
    exact demoLoop_values_ts _ _ _ _ _ _ _ _
  · intro h
    rw [h]

/-- Witness for C2 (corrected) at concrete arguments. -/
theorem demoData_deterministic_values_witness :
    (generateDemoData "ETHUSDT" "4h" 2 5).map candleValues =
      (generateDemoData "ETHUSDT" "4h" 2 7).map candleValues ∧
    ((5 : ℤ) = 5 →
      generateDemoData "ETHUSDT" "4h" 2 5 = generateDemoData "ETHUSDT" "4h" 2 5) :=
  ⟨(demoData_deterministic_values "ETHUSDT" "4h" 2 5 7).1,
   (demoData_deterministic_values "ETHUSDT" "4h" 2 5 5).2⟩

/-- Counterexample to C2 as stated: two invocations with identical
`symbol`, `timeframe` and `limit` but different wall-clock readings
produce different candle sequences (the timestamps differ). -/
theorem demoData_not_clock_independent :
    generateDemoData "BTCUSDT" "1h" 1 0 ≠ generateDemoData "BTCUSDT" "1h" 1 1 := by
  decide

/-! ### C9 infrastructure: strict monotonicity and a streaming MACD -/

/-- Boolean strict increase of consecutive elements. -/
def strictIncr : List ℚ → Bool
  | [] => true
  | [_] => true
  | a :: b :: t => a < b && strictIncr (b :: t)

theorem strictIncr_tail {a : ℚ} {t : List ℚ} (h : strictIncr (a :: t) = true) :
    strictIncr t = true := by
  cases t with
  | nil => rfl
  | cons b t2 =>
    unfold strictIncr at h
    exact (Bool.and_eq_true_iff.mp h).2

theorem strictIncr_drop (n : ℕ) :
    ∀ l : List ℚ, strictIncr l = true → strictIncr (l.drop n) = true := by
  induction n with
  | zero => intro l h; exact h
  | succ m ih =>
    intro l h
    cases l with
    | nil => rfl
    | cons a t => exact ih t (strictIncr_tail h)

theorem strictIncr_deltas :
    ∀ w : List ℚ, strictIncr w = true →
      ∀ d ∈ w.zipWith (fun prev cur => cur - prev) w.tail, 0 < d := by
  intro w
  induction w with
  | nil => intro _ d hd; simp at hd
  | cons a t ih =>
    intro h d hd
    cases t with
    | nil => simp at hd
    | cons b t2 =>
      unfold strictIncr at h
      obtain ⟨hab, ht⟩ := Bool.and_eq_true_iff.mp h
      simp only [List.tail_cons, List.zipWith_cons_cons, List.mem_cons] at hd
      rcases hd with rfl | hd
      · have : a < b := of_decide_eq_true hab
        linarith
      · exact ih ht d hd

/-- A strictly increasing close list of length at least 15 always
yields RSI exactly 100 (the average loss is zero). -/
theorem rsi_hundred_of_strictIncr (closes : List ℚ) (hlen : 15 ≤ closes.length)
    (hmono : strictIncr closes = true) : rsi closes = some 100 := by
  have hwin := strictIncr_drop (closes.length - 15) closes hmono
  have hpos := strictIncr_deltas _ hwin
  unfold rsi
  rw [if_neg (by omega)]
  have hzero : ((rsiDeltas closes 14).map fun d => if d > 0 then 0 else -d).sum = 0 := by
    refine List.sum_eq_zero ?_
    intro x hx
    simp only [List.mem_map] at hx
    obtain ⟨d, hd, rfl⟩ := hx
    unfold rsiDeltas at hd
    have h15 : closes.length - (14 + 1) = closes.length - 15 := by omega
    rw [h15] at hd
    have := hpos d hd
    rw [if_pos this]
  simp only [rsiDeltas]
  rw [show closes.length - (14 + 1) = closes.length - 15 from by omega]
  rw [show (((closes.drop (closes.length - 15)).zipWith
      (fun prev cur => cur - prev) (closes.drop (closes.length - 15)).tail).map
      fun d => if d > 0 then 0 else -d).sum = 0 from by
    have h15 : closes.length - (14 + 1) = closes.length - 15 := by omega
    rw [← h15]
    simpa [rsiDeltas, h15] using hzero]
  rw [if_pos (by norm_num)]

/-- One step of the streaming MACD state
`(e12, e26, history length, signal accumulator)`: the accumulator is the
running sum of the first 9 history values, then their average, then the
9-period EMA of the history. -/
def macdSStep (st : ℚ × ℚ × ℕ × ℚ) (p : ℚ) : ℚ × ℚ × ℕ × ℚ :=
  let e12 := p * (2 / 13) + st.1 * (1 - 2 / 13)
  let e26 := p * (2 / 27) + st.2.1 * (1 - 2 / 27)
  let h := e12 - e26
  (e12, e26, st.2.2.1 + 1,
    if st.2.2.1 + 1 < 9 then st.2.2.2 + h
    else if st.2.2.1 + 1 = 9 then (st.2.2.2 + h) / 9
    else h * (2 / 10) + st.2.2.2 * (1 - 2 / 10))

/-- The signal value determined by a MACD history: the running sum below
9 entries, the 9-period EMA (seeded by the average of the first 9)
otherwise. -/
def sigOf (hist : List ℚ) : ℚ :=
  if 9 ≤ hist.length then emaRunK (2 / 10) ((hist.take 9).sum / 9) (hist.drop 9)
  else hist.sum

theorem macdSStep_spec (e12 e26 : ℚ) (hist : List ℚ) (p : ℚ) :
    macdSStep (e12, e26, hist.length, sigOf hist) p =
      ((macdStep (e12, e26, hist) p).1, (macdStep (e12, e26, hist) p).2.1,
       (macdStep (e12, e26, hist) p).2.2.length,
       sigOf (macdStep (e12, e26, hist) p).2.2) := by
  unfold macdSStep macdStep sigOf
  dsimp only []
  simp only [List.length_append, List.length_cons, List.length_nil, Nat.zero_add]
  by_cases h1 : hist.length + 1 < 9
  · rw [if_pos h1, if_neg (show ¬ 9 ≤ hist.length + 1 by omega),
      if_neg (show ¬ 9 ≤ hist.length by omega)]
    simp [List.sum_append]
  · by_cases h2 : hist.length + 1 = 9
    · rw [if_neg h1, if_pos h2, if_neg (show ¬ 9 ≤ hist.length by omega),
        if_pos (show 9 ≤ hist.length + 1 by omega)]
      rw [List.take_of_length_le (by simp; omega), List.drop_of_length_le (by simp; omega)]
      simp [emaRunK, List.sum_append]
    · have h9 : 9 ≤ hist.length := by omega
      rw [if_neg h1, if_neg h2, if_pos h9, if_pos (show 9 ≤ hist.length + 1 by omega)]
      rw [List.take_append_of_le_length (by omega), List.drop_append_of_le_length h9]
      rw [emaRunK_append]
      simp [emaRunK]

theorem macdS_foldl_spec (l : List ℚ) :
    ∀ (e12 e26 : ℚ) (hist : List ℚ),
      l.foldl macdSStep (e12, e26, hist.length, sigOf hist) =
        ((l.foldl macdStep (e12, e26, hist)).1,
         (l.foldl macdStep (e12, e26, hist)).2.1,
         (l.foldl macdStep (e12, e26, hist)).2.2.length,
         sigOf (l.foldl macdStep (e12, e26, hist)).2.2) := by
  induction l with
  | nil => intros; rfl
  | cons p t ih =>
    intro e12 e26 hist
    rw [List.foldl_cons, List.foldl_cons, macdSStep_spec]
    exact ih _ _ _

theorem macdStep_foldl_e12 (l : List ℚ) :
    ∀ st : ℚ × ℚ × List ℚ, (l.foldl macdStep st).1 = emaRunK (2 / 13) st.1 l := by
  induction l with
  | nil => intro st; rfl
  | cons p t ih =>
    intro st
    rw [List.foldl_cons, ih]
    rfl

theorem macdStep_foldl_e26 (l : List ℚ) :
    ∀ st : ℚ × ℚ × List ℚ, (l.foldl macdStep st).2.1 = emaRunK (2 / 27) st.2.1 l := by
  induction l with
  | nil => intro st; rfl
  | cons p t ih =>
    intro st
    rw [List.foldl_cons, ih]
    rfl

theorem emaVal_twelve (prices : List ℚ) (h : 26 ≤ prices.length) :
    emaVal prices 12 = emaRunK (2 / 13)
      (emaRunK (2 / 13) ((prices.take 12).sum / 12) ((prices.drop 12).take 14))
      (prices.drop 26) := by
  unfold emaVal
  have hdd : (prices.drop 12).drop 14 = prices.drop 26 := by
    rw [List.drop_drop]
  have hsplit : (prices.drop 12).take 14 ++ prices.drop 26 = prices.drop 12 := by
    rw [← hdd, List.take_append_drop]
  conv_lhs => rw [← hsplit]
  rw [emaRunK_append]
  norm_num

theorem emaVal_twentysix (prices : List ℚ) :
    emaVal prices 26 = emaRunK (2 / 27) ((prices.take 26).sum / 26) (prices.drop 26) := by
  unfold emaVal
  norm_num

theorem macd_via_stream (prices : List ℚ) (h35 : 35 ≤ prices.length) :
    macd prices =
      { line := some
          (((prices.drop 26).foldl macdSStep
              (emaRunK (2 / 13) ((prices.take 12).sum / 12) ((prices.drop 12).take 14),
               (prices.take 26).sum / 26, 0, 0)).1 -
           ((prices.drop 26).foldl macdSStep
              (emaRunK (2 / 13) ((prices.take 12).sum / 12) ((prices.drop 12).take 14),
               (prices.take 26).sum / 26, 0, 0)).2.1)
        signal := some
          (((prices.drop 26).foldl macdSStep
              (emaRunK (2 / 13) ((prices.take 12).sum / 12) ((prices.drop 12).take 14),
               (prices.take 26).sum / 26, 0, 0)).2.2.2)
        histogram := some
          ((((prices.drop 26).foldl macdSStep
              (emaRunK (2 / 13) ((prices.take 12).sum / 12) ((prices.drop 12).take 14),
               (prices.take 26).sum / 26, 0, 0)).1 -
            ((prices.drop 26).foldl macdSStep
              (emaRunK (2 / 13) ((prices.take 12).sum / 12) ((prices.drop 12).take 14),
               (prices.take 26).sum / 26, 0, 0)).2.1) -
           ((prices.drop 26).foldl macdSStep
              (emaRunK (2 / 13) ((prices.take 12).sum / 12) ((prices.drop 12).take 14),
               (prices.take 26).sum / 26, 0, 0)).2.2.2) } := by
  have hstream := macdS_foldl_spec (prices.drop 26)
    (emaRunK (2 / 13) ((prices.take 12).sum / 12) ((prices.drop 12).take 14))
    ((prices.take 26).sum / 26) []
  have hs0 : sigOf ([] : List ℚ) = 0 := rfl
  rw [show (([] : List ℚ)).length = 0 from rfl, hs0] at hstream
  have hlen : ((prices.drop 26).foldl macdStep
      (emaRunK (2 / 13) ((prices.take 12).sum / 12) ((prices.drop 12).take 14),
       (prices.take 26).sum / 26, ([] : List ℚ))).2.2.length = prices.length - 26 := by
    rw [macdStep_foldl_len]
    simp
  unfold macd
  rw [if_neg (by omega), ema_eq_some prices 12 (by omega), ema_eq_some prices 26 (by omega)]
  dsimp only []
  rw [hstream]
  dsimp only []
  rw [hlen, if_pos (by omega)]
  have hsig : sigOf ((prices.drop 26).foldl macdStep
      (emaRunK (2 / 13) ((prices.take 12).sum / 12) ((prices.drop 12).take 14),
       (prices.take 26).sum / 26, ([] : List ℚ))).2.2 =
      emaRunK (2 / 10)
        ((((prices.drop 26).foldl macdStep
            (emaRunK (2 / 13) ((prices.take 12).sum / 12) ((prices.drop 12).take 14),
             (prices.take 26).sum / 26, ([] : List ℚ))).2.2.take 9).sum / 9)
        (((prices.drop 26).foldl macdStep
            (emaRunK (2 / 13) ((prices.take 12).sum / 12) ((prices.drop 12).take 14),
             (prices.take 26).sum / 26, ([] : List ℚ))).2.2.drop 9) := by
    unfold sigOf
    rw [if_pos (by rw [hlen]; omega)]
  rw [← hsig]
  have he12 := macdStep_foldl_e12 (prices.drop 26)
    (emaRunK (2 / 13) ((prices.take 12).sum / 12) ((prices.drop 12).take 14),
     (prices.take 26).sum / 26, ([] : List ℚ))
  have he26 := macdStep_foldl_e26 (prices.drop 26)
    (emaRunK (2 / 13) ((prices.take 12).sum / 12) ((prices.drop 12).take 14),
     (prices.take 26).sum / 26, ([] : List ℚ))
  rw [emaVal_twelve prices (by omega), emaVal_twentysix prices, ← he12, ← he26]
  rfl

theorem emaVal_eval (prices : List ℚ) (period : ℕ) (k s : ℚ)
    (hk : (2 : ℚ) / ((period : ℚ) + 1) = k)
    (hs : (prices.take period).sum / (period : ℚ) = s) :
    emaVal prices period = emaRunK k s (prices.drop period) := by
  unfold emaVal
  rw [hk, hs]

/-! ### C9 concrete analysis input: 300 strictly increasing closes
(negative prices, linear rise then a sharply decelerating tail) -/

set_option maxHeartbeats 4000000 in
/-- 300 strictly increasing closing prices: `-1000000 + 1000*i` for the
first 260 candles, then forty more steps whose deltas halve each time
(`+500, +250, ...`), i.e. a rising series that decelerates sharply. -/
def closesB : List ℚ := [-1000000, -999000, -998000, -997000, -996000, -995000, -994000, -993000, -992000, -991000, -990000, -989000, -988000, -987000, -986000, -985000, -984000, -983000, -982000, -981000, -980000, -979000, -978000, -977000, -976000, -975000, -974000, -973000, -972000, -971000, -970000, -969000, -968000, -967000, -966000, -965000, -964000, -963000, -962000, -961000, -960000, -959000, -958000, -957000, -956000, -955000, -954000, -953000, -952000, -951000, -950000, -949000, -948000, -947000, -946000, -945000, -944000, -943000, -942000, -941000, -940000, -939000, -938000, -937000, -936000, -935000, -934000, -933000, -932000, -931000, -930000, -929000, -928000, -927000, -926000, -925000, -924000, -923000, -922000, -921000, -920000, -919000, -918000, -917000, -916000, -915000, -914000, -913000, -912000, -911000, -910000, -909000, -908000, -907000, -906000, -905000, -904000, -903000, -902000, -901000, -900000, -899000, -898000, -897000, -896000, -895000, -894000, -893000, -892000, -891000, -890000, -889000, -888000, -887000, -886000, -885000, -884000, -883000, -882000, -881000, -880000, -879000, -878000, -877000, -876000, -875000, -874000, -873000, -872000, -871000, -870000, -869000, -868000, -867000, -866000, -865000, -864000, -863000, -862000, -861000, -860000, -859000, -858000, -857000, -856000, -855000, -854000, -853000, -852000, -851000, -850000, -849000, -848000, -847000, -846000, -845000, -844000, -843000, -842000, -841000, -840000, -839000, -838000, -837000, -836000, -835000, -834000, -833000, -832000, -831000, -830000, -829000, -828000, -827000, -826000, -825000, -824000, -823000, -822000, -821000, -820000, -819000, -818000, -817000, -816000, -815000, -814000, -813000, -812000, -811000, -810000, -809000, -808000, -807000, -806000, -805000, -804000, -803000, -802000, -801000, -800000, -799000, -798000, -797000, -796000, -795000, -794000, -793000, -792000, -791000, -790000, -789000, -788000, -787000, -786000, -785000, -784000, -783000, -782000, -781000, -780000, -779000, -778000, -777000, -776000, -775000, -774000, -773000, -772000, -771000, -770000, -769000, -768000, -767000, -766000, -765000, -764000, -763000, -762000, -761000, -760000, -759000, -758000, -757000, -756000, -755000, -754000, -753000, -752000, -751000, -750000, -749000, -748000, -747000, -746000, -745000, -744000, -743000, -742000, -741000, -740500, -740250, -740125, -1480125 / 2, -2960125 / 4, -5920125 / 8, -11840125 / 16, -23680125 / 32, -47360125 / 64, -94720125 / 128, -189440125 / 256, -378880125 / 512, -757760125 / 1024, -1515520125 / 2048, -3031040125 / 4096, -6062080125 / 8192, -12124160125 / 16384, -24248320125 / 32768, -48496640125 / 65536, -96993280125 / 131072, -193986560125 / 262144, -387973120125 / 524288, -775946240125 / 1048576, -1551892480125 / 2097152, -3103784960125 / 4194304, -6207569920125 / 8388608, -12415139840125 / 16777216, -24830279680125 / 33554432, -49660559360125 / 67108864, -99321118720125 / 134217728, -198642237440125 / 268435456, -397284474880125 / 536870912, -794568949760125 / 1073741824, -1589137899520125 / 2147483648, -3178275799040125 / 4294967296, -6356551598080125 / 8589934592, -12713103196160125 / 17179869184, -25426206392320125 / 34359738368, -50852412784640125 / 68719476736, -101704825569280125 / 137438953472]

/-- The candle list built from `closesB` (open = high = low = close,
volume 1, timestamp 0). -/
def candlesB : List Candle := closesB.map (fun c => ⟨0, c, c, c, c, 1⟩)

set_option maxRecDepth 8000 in
theorem closesB_closes : candlesB.map (·.close) = closesB := by
  decide

set_option maxRecDepth 8000 in
theorem closesB_length : closesB.length = 300 := by
  decide

theorem candlesB_length : candlesB.length = 300 := by
  have h := congrArg List.length closesB_closes
  rw [List.length_map] at h
  rw [h, closesB_length]

set_option maxRecDepth 8000 in
theorem closesB_strictIncr : strictIncr closesB = true := by
  decide

/-- The indicator snapshot of `candlesB` (proved below). -/
def indB : IndicatorSet :=
  { currentPrice := some (-101704825569280125 / 137438953472)
    rsi := some 100
    macd := ⟨some (13759970360441453348123760462773859402823145846014300241499602815047411137943576400354640427616418977622928577929125 / 22301522192584789574012495778461645853633717400059742421591978742859500500410010306390688878897641114760399290368), some (1444818062937151651419710436221296384339540071789285186541350955885976677353078738859731965910389980732184027032910828242880408072340999981341 / 1622649302050179508952168964494314121375916685796964333101057763477692824410770139830906473718470160002500000000000000000000000000000000000), some (-110912112946807283148598691259017838519016402490495427857603402079914961571505374927344265817710018212885790862904416891248227184978255366429 / 405662325512544877238042241123578530343979171449241083275264440869423206102692534957726618429617540000625000000000000000000000000000000000)⟩
    bollingerBands := ⟨some (-55912819143626334357469945337 / 75557863725914323419136), some (-406819302303334375 / 549755813888), some (-55912819177932616834696454663 / 75557863725914323419136)⟩
    ema20 := some (-3937287141869029929307064120337744743115128858397373401847550777189875 / 5319265077426891027379959331216498647039681496908261665103937536)
    ema50 := some (-10283335483439850020612639316048892828400480168187692669088554561299821147534867386125 / 13800247897592826236416110071427326481896852733418474389254059588464240268148736)
    sma200 := some (-884452650941153275 / 1099511627776)
    atr14 := some (2047875 / 1924145348608)
    momentum3 := some (-7 / 813638604554248)
    momentum10 := some (-341 / 271212868185088)
    volatility20 := some (131518799012660014857371811697514299377909091612933453724651084440269754037177902869033705303094692387745716841700250742468210641817527238650023941712539586936079821571899559545750229742375181267412851777976149764383170431349969169983686524201401935758699358797965113493678574030988214199599796443794395194726887105054547687989266829041713137611106549219137701767331013186841869217927153666948442165972990995125302150189 / 857404102387027046321266975477887049233312222666795624692558519593552487188888103761644638407145865930230300098239513037481844218568274831070067624250908805608839937309938583579270956699772952715344257302262435259672559121724712522985408388840369087891374641696298259675051747712902962555213178959191180916450051422673296040059961464210729610408322435383294700041806982775118106848631086768007189517455737334389884850592183005691)
    latestVolume := 1
    avgVolume := 1
    volumeRatioVal := some 1 }

/-- The previous-bar MACD of `candlesB` (proved below). -/
def pmB : MacdResult := ⟨some (21141938783503358094238492399343143974172274060572131239523351342588940623362789186145632790594068283588713834875 / 31768550131887164635345435581854196372697603133988237067794841514044872507706567388020924328914018681994870784), some (443227970337310237768749039168180690273093012615322112364374460958943486873100887118825137244472934172384563503081266419979668164478420327 / 462293248447344589445062383046813139993138656922212060712552069366864052538680951518776773139165287750000000000000000000000000000000000), some (-33893067349111991872362289525324747091850304810980200921209534071646763819269794513811332930088598589835334097808327904441142207440405863 / 115573312111836147361265595761703284998284664230553015178138017341716013134670237879694193284791321937500000000000000000000000000000000)⟩

set_option maxRecDepth 8000 in
set_option maxHeartbeats 4000000 in
theorem closesB_E20 : ema closesB 20 = some (-3937287141869029929307064120337744743115128858397373401847550777189875 / 5319265077426891027379959331216498647039681496908261665103937536) := by
  rw [ema_eq_some closesB 20 (by decide), emaVal_eval closesB 20 (2 / 21) (-990500)
    (by norm_num) (by decide)]
  rw [show closesB.drop 20 = [-980000, -979000, -978000, -977000, -976000, -975000, -974000, -973000, -972000, -971000, -970000, -969000, -968000, -967000, -966000, -965000, -964000, -963000, -962000, -961000, -960000, -959000, -958000, -957000, -956000, -955000, -954000, -953000, -952000, -951000, -950000, -949000, -948000, -947000, -946000, -945000, -944000, -943000, -942000, -941000, -940000, -939000, -938000, -937000, -936000, -935000, -934000, -933000, -932000, -931000, -930000, -929000, -928000, -927000, -926000, -925000, -924000, -923000, -922000, -921000, -920000, -919000, -918000, -917000, -916000, -915000, -914000, -913000, -912000, -911000, -910000, -909000, -908000, -907000, -906000, -905000, -904000, -903000, -902000, -901000, -900000, -899000, -898000, -897000, -896000, -895000, -894000, -893000, -892000, -891000, -890000, -889000, -888000, -887000, -886000, -885000, -884000, -883000, -882000, -881000] ++ ([-880000, -879000, -878000, -877000, -876000, -875000, -874000, -873000, -872000, -871000, -870000, -869000, -868000, -867000, -866000, -865000, -864000, -863000, -862000, -861000, -860000, -859000, -858000, -857000, -856000, -855000, -854000, -853000, -852000, -851000, -850000, -849000, -848000, -847000, -846000, -845000, -844000, -843000, -842000, -841000, -840000, -839000, -838000, -837000, -836000, -835000, -834000, -833000, -832000, -831000, -830000, -829000, -828000, -827000, -826000, -825000, -824000, -823000, -822000, -821000, -820000, -819000, -818000, -817000, -816000, -815000, -814000, -813000, -812000, -811000, -810000, -809000, -808000, -807000, -806000, -805000, -804000, -803000, -802000, -801000, -800000, -799000, -798000, -797000, -796000, -795000, -794000, -793000, -792000, -791000, -790000, -789000, -788000, -787000, -786000, -785000, -784000, -783000, -782000, -781000] ++ [-780000, -779000, -778000, -777000, -776000, -775000, -774000, -773000, -772000, -771000, -770000, -769000, -768000, -767000, -766000, -765000, -764000, -763000, -762000, -761000, -760000, -759000, -758000, -757000, -756000, -755000, -754000, -753000, -752000, -751000, -750000, -749000, -748000, -747000, -746000, -745000, -744000, -743000, -742000, -741000, -740500, -740250, -740125, -1480125 / 2, -2960125 / 4, -5920125 / 8, -11840125 / 16, -23680125 / 32, -47360125 / 64, -94720125 / 128, -189440125 / 256, -378880125 / 512, -757760125 / 1024, -1515520125 / 2048, -3031040125 / 4096, -6062080125 / 8192, -12124160125 / 16384, -24248320125 / 32768, -48496640125 / 65536, -96993280125 / 131072, -193986560125 / 262144, -387973120125 / 524288, -775946240125 / 1048576, -1551892480125 / 2097152, -3103784960125 / 4194304, -6207569920125 / 8388608, -12415139840125 / 16777216, -24830279680125 / 33554432, -49660559360125 / 67108864, -99321118720125 / 134217728, -198642237440125 / 268435456, -397284474880125 / 536870912, -794568949760125 / 1073741824, -1589137899520125 / 2147483648, -3178275799040125 / 4294967296, -6356551598080125 / 8589934592, -12713103196160125 / 17179869184, -25426206392320125 / 34359738368, -50852412784640125 / 68719476736, -101704825569280125 / 137438953472]) from by decide,
    emaRunK_append, emaRunK_append]
  rw [show emaRunK (2 / 21) (-990500) [-980000, -979000, -978000, -977000, -976000, -975000, -974000, -973000, -972000, -971000, -970000, -969000, -968000, -967000, -966000, -965000, -964000, -963000, -962000, -961000, -960000, -959000, -958000, -957000, -956000, -955000, -954000, -953000, -952000, -951000, -950000, -949000, -948000, -947000, -946000, -945000, -944000, -943000, -942000, -941000, -940000, -939000, -938000, -937000, -936000, -935000, -934000, -933000, -932000, -931000, -930000, -929000, -928000, -927000, -926000, -925000, -924000, -923000, -922000, -921000, -920000, -919000, -918000, -917000, -916000, -915000, -914000, -913000, -912000, -911000, -910000, -909000, -908000, -907000, -906000, -905000, -904000, -903000, -902000, -901000, -900000, -899000, -898000, -897000, -896000, -895000, -894000, -893000, -892000, -891000, -890000, -889000, -888000, -887000, -886000, -885000, -884000, -883000, -882000, -881000] = -890500 from by decide]
  rw [show emaRunK (2 / 21) (-890500) [-880000, -879000, -878000, -877000, -876000, -875000, -874000, -873000, -872000, -871000, -870000, -869000, -868000, -867000, -866000, -865000, -864000, -863000, -862000, -861000, -860000, -859000, -858000, -857000, -856000, -855000, -854000, -853000, -852000, -851000, -850000, -849000, -848000, -847000, -846000, -845000, -844000, -843000, -842000, -841000, -840000, -839000, -838000, -837000, -836000, -835000, -834000, -833000, -832000, -831000, -830000, -829000, -828000, -827000, -826000, -825000, -824000, -823000, -822000, -821000, -820000, -819000, -818000, -817000, -816000, -815000, -814000, -813000, -812000, -811000, -810000, -809000, -808000, -807000, -806000, -805000, -804000, -803000, -802000, -801000, -800000, -799000, -798000, -797000, -796000, -795000, -794000, -793000, -792000, -791000, -790000, -789000, -788000, -787000, -786000, -785000, -784000, -783000, -782000, -781000] = -790500 from by decide]
  rw [show emaRunK (2 / 21) (-790500) [-780000, -779000, -778000, -777000, -776000, -775000, -774000, -773000, -772000, -771000, -770000, -769000, -768000, -767000, -766000, -765000, -764000, -763000, -762000, -761000, -760000, -759000, -758000, -757000, -756000, -755000, -754000, -753000, -752000, -751000, -750000, -749000, -748000, -747000, -746000, -745000, -744000, -743000, -742000, -741000, -740500, -740250, -740125, -1480125 / 2, -2960125 / 4, -5920125 / 8, -11840125 / 16, -23680125 / 32, -47360125 / 64, -94720125 / 128, -189440125 / 256, -378880125 / 512, -757760125 / 1024, -1515520125 / 2048, -3031040125 / 4096, -6062080125 / 8192, -12124160125 / 16384, -24248320125 / 32768, -48496640125 / 65536, -96993280125 / 131072, -193986560125 / 262144, -387973120125 / 524288, -775946240125 / 1048576, -1551892480125 / 2097152, -3103784960125 / 4194304, -6207569920125 / 8388608, -12415139840125 / 16777216, -24830279680125 / 33554432, -49660559360125 / 67108864, -99321118720125 / 134217728, -198642237440125 / 268435456, -397284474880125 / 536870912, -794568949760125 / 1073741824, -1589137899520125 / 2147483648, -3178275799040125 / 4294967296, -6356551598080125 / 8589934592, -12713103196160125 / 17179869184, -25426206392320125 / 34359738368, -50852412784640125 / 68719476736, -101704825569280125 / 137438953472] = -3937287141869029929307064120337744743115128858397373401847550777189875 / 5319265077426891027379959331216498647039681496908261665103937536 from by decide]

set_option maxRecDepth 8000 in
set_option maxHeartbeats 4000000 in
theorem closesB_E50 : ema closesB 50 = some (-10283335483439850020612639316048892828400480168187692669088554561299821147534867386125 / 13800247897592826236416110071427326481896852733418474389254059588464240268148736) := by
  rw [ema_eq_some closesB 50 (by decide), emaVal_eval closesB 50 (2 / 51) (-975500)
    (by norm_num) (by decide)]
  rw [show closesB.drop 50 = [-950000, -949000, -948000, -947000, -946000, -945000, -944000, -943000, -942000, -941000, -940000, -939000, -938000, -937000, -936000, -935000, -934000, -933000, -932000, -931000, -930000, -929000, -928000, -927000, -926000, -925000, -924000, -923000, -922000, -921000, -920000, -919000, -918000, -917000, -916000, -915000, -914000, -913000, -912000, -911000, -910000, -909000, -908000, -907000, -906000, -905000, -904000, -903000, -902000, -901000, -900000, -899000, -898000, -897000, -896000, -895000, -894000, -893000, -892000, -891000, -890000, -889000, -888000, -887000, -886000, -885000, -884000, -883000, -882000, -881000, -880000, -879000, -878000, -877000, -876000, -875000, -874000, -873000, -872000, -871000, -870000, -869000, -868000, -867000, -866000, -865000, -864000, -863000, -862000, -861000, -860000, -859000, -858000, -857000, -856000, -855000, -854000, -853000, -852000, -851000] ++ ([-850000, -849000, -848000, -847000, -846000, -845000, -844000, -843000, -842000, -841000, -840000, -839000, -838000, -837000, -836000, -835000, -834000, -833000, -832000, -831000, -830000, -829000, -828000, -827000, -826000, -825000, -824000, -823000, -822000, -821000, -820000, -819000, -818000, -817000, -816000, -815000, -814000, -813000, -812000, -811000, -810000, -809000, -808000, -807000, -806000, -805000, -804000, -803000, -802000, -801000, -800000, -799000, -798000, -797000, -796000, -795000, -794000, -793000, -792000, -791000, -790000, -789000, -788000, -787000, -786000, -785000, -784000, -783000, -782000, -781000, -780000, -779000, -778000, -777000, -776000, -775000, -774000, -773000, -772000, -771000, -770000, -769000, -768000, -767000, -766000, -765000, -764000, -763000, -762000, -761000, -760000, -759000, -758000, -757000, -756000, -755000, -754000, -753000, -752000, -751000] ++ [-750000, -749000, -748000, -747000, -746000, -745000, -744000, -743000, -742000, -741000, -740500, -740250, -740125, -1480125 / 2, -2960125 / 4, -5920125 / 8, -11840125 / 16, -23680125 / 32, -47360125 / 64, -94720125 / 128, -189440125 / 256, -378880125 / 512, -757760125 / 1024, -1515520125 / 2048, -3031040125 / 4096, -6062080125 / 8192, -12124160125 / 16384, -24248320125 / 32768, -48496640125 / 65536, -96993280125 / 131072, -193986560125 / 262144, -387973120125 / 524288, -775946240125 / 1048576, -1551892480125 / 2097152, -3103784960125 / 4194304, -6207569920125 / 8388608, -12415139840125 / 16777216, -24830279680125 / 33554432, -49660559360125 / 67108864, -99321118720125 / 134217728, -198642237440125 / 268435456, -397284474880125 / 536870912, -794568949760125 / 1073741824, -1589137899520125 / 2147483648, -3178275799040125 / 4294967296, -6356551598080125 / 8589934592, -12713103196160125 / 17179869184, -25426206392320125 / 34359738368, -50852412784640125 / 68719476736, -101704825569280125 / 137438953472]) from by decide,
    emaRunK_append, emaRunK_append]
  rw [show emaRunK (2 / 51) (-975500) [-950000, -949000, -948000, -947000, -946000, -945000, -944000, -943000, -942000, -941000, -940000, -939000, -938000, -937000, -936000, -935000, -934000, -933000, -932000, -931000, -930000, -929000, -928000, -927000, -926000, -925000, -924000, -923000, -922000, -921000, -920000, -919000, -918000, -917000, -916000, -915000, -914000, -913000, -912000, -911000, -910000, -909000, -908000, -907000, -906000, -905000, -904000, -903000, -902000, -901000, -900000, -899000, -898000, -897000, -896000, -895000, -894000, -893000, -892000, -891000, -890000, -889000, -888000, -887000, -886000, -885000, -884000, -883000, -882000, -881000, -880000, -879000, -878000, -877000, -876000, -875000, -874000, -873000, -872000, -871000, -870000, -869000, -868000, -867000, -866000, -865000, -864000, -863000, -862000, -861000, -860000, -859000, -858000, -857000, -856000, -855000, -854000, -853000, -852000, -851000] = -875500 from by decide]
  rw [show emaRunK (2 / 51) (-875500) [-850000, -849000, -848000, -847000, -846000, -845000, -844000, -843000, -842000, -841000, -840000, -839000, -838000, -837000, -836000, -835000, -834000, -833000, -832000, -831000, -830000, -829000, -828000, -827000, -826000, -825000, -824000, -823000, -822000, -821000, -820000, -819000, -818000, -817000, -816000, -815000, -814000, -813000, -812000, -811000, -810000, -809000, -808000, -807000, -806000, -805000, -804000, -803000, -802000, -801000, -800000, -799000, -798000, -797000, -796000, -795000, -794000, -793000, -792000, -791000, -790000, -789000, -788000, -787000, -786000, -785000, -784000, -783000, -782000, -781000, -780000, -779000, -778000, -777000, -776000, -775000, -774000, -773000, -772000, -771000, -770000, -769000, -768000, -767000, -766000, -765000, -764000, -763000, -762000, -761000, -760000, -759000, -758000, -757000, -756000, -755000, -754000, -753000, -752000, -751000] = -775500 from by decide]
  rw [show emaRunK (2 / 51) (-775500) [-750000, -749000, -748000, -747000, -746000, -745000, -744000, -743000, -742000, -741000, -740500, -740250, -740125, -1480125 / 2, -2960125 / 4, -5920125 / 8, -11840125 / 16, -23680125 / 32, -47360125 / 64, -94720125 / 128, -189440125 / 256, -378880125 / 512, -757760125 / 1024, -1515520125 / 2048, -3031040125 / 4096, -6062080125 / 8192, -12124160125 / 16384, -24248320125 / 32768, -48496640125 / 65536, -96993280125 / 131072, -193986560125 / 262144, -387973120125 / 524288, -775946240125 / 1048576, -1551892480125 / 2097152, -3103784960125 / 4194304, -6207569920125 / 8388608, -12415139840125 / 16777216, -24830279680125 / 33554432, -49660559360125 / 67108864, -99321118720125 / 134217728, -198642237440125 / 268435456, -397284474880125 / 536870912, -794568949760125 / 1073741824, -1589137899520125 / 2147483648, -3178275799040125 / 4294967296, -6356551598080125 / 8589934592, -12713103196160125 / 17179869184, -25426206392320125 / 34359738368, -50852412784640125 / 68719476736, -101704825569280125 / 137438953472] = -10283335483439850020612639316048892828400480168187692669088554561299821147534867386125 / 13800247897592826236416110071427326481896852733418474389254059588464240268148736 from by decide]

set_option maxRecDepth 8000 in
set_option maxHeartbeats 4000000 in
theorem closesB_sma200 : sma closesB 200 = some (-884452650941153275 / 1099511627776) := by
  unfold sma
  rw [if_neg (by decide)]
  congr 1

set_option maxRecDepth 8000 in
set_option maxHeartbeats 4000000 in
theorem closesB_macd : macd closesB =
    ⟨some (13759970360441453348123760462773859402823145846014300241499602815047411137943576400354640427616418977622928577929125 / 22301522192584789574012495778461645853633717400059742421591978742859500500410010306390688878897641114760399290368), some (1444818062937151651419710436221296384339540071789285186541350955885976677353078738859731965910389980732184027032910828242880408072340999981341 / 1622649302050179508952168964494314121375916685796964333101057763477692824410770139830906473718470160002500000000000000000000000000000000000), some (-110912112946807283148598691259017838519016402490495427857603402079914961571505374927344265817710018212885790862904416891248227184978255366429 / 405662325512544877238042241123578530343979171449241083275264440869423206102692534957726618429617540000625000000000000000000000000000000000)⟩ := by
  rw [macd_via_stream closesB (by decide)]
  rw [show (closesB.take 12).sum / 12 = -994500 from by decide]
  rw [show (closesB.drop 12).take 14 = [-988000, -987000, -986000, -985000, -984000, -983000, -982000, -981000, -980000, -979000, -978000, -977000, -976000, -975000] from by decide]
  rw [show (closesB.take 26).sum / 26 = -987500 from by decide]
  rw [show emaRunK (2 / 13) (-994500) [-988000, -987000, -986000, -985000, -984000, -983000, -982000, -981000, -980000, -979000, -978000, -977000, -976000, -975000] = -980500 from by decide]
  rw [show closesB.drop 26 = [-974000, -973000, -972000, -971000, -970000, -969000, -968000, -967000, -966000, -965000, -964000, -963000, -962000, -961000, -960000, -959000, -958000, -957000, -956000, -955000, -954000, -953000, -952000, -951000, -950000, -949000, -948000, -947000, -946000, -945000, -944000, -943000, -942000, -941000, -940000, -939000, -938000, -937000, -936000, -935000, -934000, -933000, -932000, -931000, -930000, -929000, -928000, -927000, -926000, -925000, -924000, -923000, -922000, -921000, -920000, -919000, -918000, -917000, -916000, -915000, -914000, -913000, -912000, -911000, -910000, -909000, -908000, -907000, -906000, -905000, -904000, -903000, -902000, -901000, -900000, -899000, -898000, -897000, -896000, -895000, -894000, -893000, -892000, -891000, -890000, -889000, -888000, -887000, -886000, -885000, -884000, -883000, -882000, -881000, -880000, -879000, -878000, -877000, -876000, -875000] ++ ([-874000, -873000, -872000, -871000, -870000, -869000, -868000, -867000, -866000, -865000, -864000, -863000, -862000, -861000, -860000, -859000, -858000, -857000, -856000, -855000, -854000, -853000, -852000, -851000, -850000, -849000, -848000, -847000, -846000, -845000, -844000, -843000, -842000, -841000, -840000, -839000, -838000, -837000, -836000, -835000, -834000, -833000, -832000, -831000, -830000, -829000, -828000, -827000, -826000, -825000, -824000, -823000, -822000, -821000, -820000, -819000, -818000, -817000, -816000, -815000, -814000, -813000, -812000, -811000, -810000, -809000, -808000, -807000, -806000, -805000, -804000, -803000, -802000, -801000, -800000, -799000, -798000, -797000, -796000, -795000, -794000, -793000, -792000, -791000, -790000, -789000, -788000, -787000, -786000, -785000, -784000, -783000, -782000, -781000, -780000, -779000, -778000, -777000, -776000, -775000] ++ [-774000, -773000, -772000, -771000, -770000, -769000, -768000, -767000, -766000, -765000, -764000, -763000, -762000, -761000, -760000, -759000, -758000, -757000, -756000, -755000, -754000, -753000, -752000, -751000, -750000, -749000, -748000, -747000, -746000, -745000, -744000, -743000, -742000, -741000, -740500, -740250, -740125, -1480125 / 2, -2960125 / 4, -5920125 / 8, -11840125 / 16, -23680125 / 32, -47360125 / 64, -94720125 / 128, -189440125 / 256, -378880125 / 512, -757760125 / 1024, -1515520125 / 2048, -3031040125 / 4096, -6062080125 / 8192, -12124160125 / 16384, -24248320125 / 32768, -48496640125 / 65536, -96993280125 / 131072, -193986560125 / 262144, -387973120125 / 524288, -775946240125 / 1048576, -1551892480125 / 2097152, -3103784960125 / 4194304, -6207569920125 / 8388608, -12415139840125 / 16777216, -24830279680125 / 33554432, -49660559360125 / 67108864, -99321118720125 / 134217728, -198642237440125 / 268435456, -397284474880125 / 536870912, -794568949760125 / 1073741824, -1589137899520125 / 2147483648, -3178275799040125 / 4294967296, -6356551598080125 / 8589934592, -12713103196160125 / 17179869184, -25426206392320125 / 34359738368, -50852412784640125 / 68719476736, -101704825569280125 / 137438953472]) from by decide,
    List.foldl_append, List.foldl_append]
  rw [show List.foldl macdSStep (-980500, -987500, 0, 0) [-974000, -973000, -972000, -971000, -970000, -969000, -968000, -967000, -966000, -965000, -964000, -963000, -962000, -961000, -960000, -959000, -958000, -957000, -956000, -955000, -954000, -953000, -952000, -951000, -950000, -949000, -948000, -947000, -946000, -945000, -944000, -943000, -942000, -941000, -940000, -939000, -938000, -937000, -936000, -935000, -934000, -933000, -932000, -931000, -930000, -929000, -928000, -927000, -926000, -925000, -924000, -923000, -922000, -921000, -920000, -919000, -918000, -917000, -916000, -915000, -914000, -913000, -912000, -911000, -910000, -909000, -908000, -907000, -906000, -905000, -904000, -903000, -902000, -901000, -900000, -899000, -898000, -897000, -896000, -895000, -894000, -893000, -892000, -891000, -890000, -889000, -888000, -887000, -886000, -885000, -884000, -883000, -882000, -881000, -880000, -879000, -878000, -877000, -876000, -875000] = (-880500, -887500, 100, 7000) from by decide]
  rw [show List.foldl macdSStep (-880500, -887500, 100, 7000) [-874000, -873000, -872000, -871000, -870000, -869000, -868000, -867000, -866000, -865000, -864000, -863000, -862000, -861000, -860000, -859000, -858000, -857000, -856000, -855000, -854000, -853000, -852000, -851000, -850000, -849000, -848000, -847000, -846000, -845000, -844000, -843000, -842000, -841000, -840000, -839000, -838000, -837000, -836000, -835000, -834000, -833000, -832000, -831000, -830000, -829000, -828000, -827000, -826000, -825000, -824000, -823000, -822000, -821000, -820000, -819000, -818000, -817000, -816000, -815000, -814000, -813000, -812000, -811000, -810000, -809000, -808000, -807000, -806000, -805000, -804000, -803000, -802000, -801000, -800000, -799000, -798000, -797000, -796000, -795000, -794000, -793000, -792000, -791000, -790000, -789000, -788000, -787000, -786000, -785000, -784000, -783000, -782000, -781000, -780000, -779000, -778000, -777000, -776000, -775000] = (-780500, -787500, 200, 7000) from by decide]
  rw [show List.foldl macdSStep (-780500, -787500, 200, 7000) [-774000, -773000, -772000, -771000, -770000, -769000, -768000, -767000, -766000, -765000, -764000, -763000, -762000, -761000, -760000, -759000, -758000, -757000, -756000, -755000, -754000, -753000, -752000, -751000, -750000, -749000, -748000, -747000, -746000, -745000, -744000, -743000, -742000, -741000, -740500, -740250, -740125, -1480125 / 2, -2960125 / 4, -5920125 / 8, -11840125 / 16, -23680125 / 32, -47360125 / 64, -94720125 / 128, -189440125 / 256, -378880125 / 512, -757760125 / 1024, -1515520125 / 2048, -3031040125 / 4096, -6062080125 / 8192, -12124160125 / 16384, -24248320125 / 32768, -48496640125 / 65536, -96993280125 / 131072, -193986560125 / 262144, -387973120125 / 524288, -775946240125 / 1048576, -1551892480125 / 2097152, -3103784960125 / 4194304, -6207569920125 / 8388608, -12415139840125 / 16777216, -24830279680125 / 33554432, -49660559360125 / 67108864, -99321118720125 / 134217728, -198642237440125 / 268435456, -397284474880125 / 536870912, -794568949760125 / 1073741824, -1589137899520125 / 2147483648, -3178275799040125 / 4294967296, -6356551598080125 / 8589934592, -12713103196160125 / 17179869184, -25426206392320125 / 34359738368, -50852412784640125 / 68719476736, -101704825569280125 / 137438953472] = (-18367523299562644631610496388716258192189387734593240308420875 / 24820694899352249660041639637394777439509831534914830336, -91459542455559253071074682005215876205531836410912735734117527328420279125 / 123489607499322138354660832241769749816375495073538360065755380187136, 274, 1444818062937151651419710436221296384339540071789285186541350955885976677353078738859731965910389980732184027032910828242880408072340999981341 / 1622649302050179508952168964494314121375916685796964333101057763477692824410770139830906473718470160002500000000000000000000000000000000000) from by decide]
  decide

set_option maxRecDepth 8000 in
set_option maxHeartbeats 4000000 in
theorem closesB_prevMacd : prevMacdOf closesB = pmB := by
  unfold prevMacdOf
  rw [if_pos (by decide)]
  rw [macd_via_stream closesB.dropLast (by decide)]
  rw [show (closesB.dropLast.take 12).sum / 12 = -994500 from by decide]
  rw [show (closesB.dropLast.drop 12).take 14 = [-988000, -987000, -986000, -985000, -984000, -983000, -982000, -981000, -980000, -979000, -978000, -977000, -976000, -975000] from by decide]
  rw [show (closesB.dropLast.take 26).sum / 26 = -987500 from by decide]
  rw [show emaRunK (2 / 13) (-994500) [-988000, -987000, -986000, -985000, -984000, -983000, -982000, -981000, -980000, -979000, -978000, -977000, -976000, -975000] = -980500 from by decide]
  rw [show closesB.dropLast.drop 26 = [-974000, -973000, -972000, -971000, -970000, -969000, -968000, -967000, -966000, -965000, -964000, -963000, -962000, -961000, -960000, -959000, -958000, -957000, -956000, -955000, -954000, -953000, -952000, -951000, -950000, -949000, -948000, -947000, -946000, -945000, -944000, -943000, -942000, -941000, -940000, -939000, -938000, -937000, -936000, -935000, -934000, -933000, -932000, -931000, -930000, -929000, -928000, -927000, -926000, -925000, -924000, -923000, -922000, -921000, -920000, -919000, -918000, -917000, -916000, -915000, -914000, -913000, -912000, -911000, -910000, -909000, -908000, -907000, -906000, -905000, -904000, -903000, -902000, -901000, -900000, -899000, -898000, -897000, -896000, -895000, -894000, -893000, -892000, -891000, -890000, -889000, -888000, -887000, -886000, -885000, -884000, -883000, -882000, -881000, -880000, -879000, -878000, -877000, -876000, -875000] ++ ([-874000, -873000, -872000, -871000, -870000, -869000, -868000, -867000, -866000, -865000, -864000, -863000, -862000, -861000, -860000, -859000, -858000, -857000, -856000, -855000, -854000, -853000, -852000, -851000, -850000, -849000, -848000, -847000, -846000, -845000, -844000, -843000, -842000, -841000, -840000, -839000, -838000, -837000, -836000, -835000, -834000, -833000, -832000, -831000, -830000, -829000, -828000, -827000, -826000, -825000, -824000, -823000, -822000, -821000, -820000, -819000, -818000, -817000, -816000, -815000, -814000, -813000, -812000, -811000, -810000, -809000, -808000, -807000, -806000, -805000, -804000, -803000, -802000, -801000, -800000, -799000, -798000, -797000, -796000, -795000, -794000, -793000, -792000, -791000, -790000, -789000, -788000, -787000, -786000, -785000, -784000, -783000, -782000, -781000, -780000, -779000, -778000, -777000, -776000, -775000] ++ [-774000, -773000, -772000, -771000, -770000, -769000, -768000, -767000, -766000, -765000, -764000, -763000, -762000, -761000, -760000, -759000, -758000, -757000, -756000, -755000, -754000, -753000, -752000, -751000, -750000, -749000, -748000, -747000, -746000, -745000, -744000, -743000, -742000, -741000, -740500, -740250, -740125, -1480125 / 2, -2960125 / 4, -5920125 / 8, -11840125 / 16, -23680125 / 32, -47360125 / 64, -94720125 / 128, -189440125 / 256, -378880125 / 512, -757760125 / 1024, -1515520125 / 2048, -3031040125 / 4096, -6062080125 / 8192, -12124160125 / 16384, -24248320125 / 32768, -48496640125 / 65536, -96993280125 / 131072, -193986560125 / 262144, -387973120125 / 524288, -775946240125 / 1048576, -1551892480125 / 2097152, -3103784960125 / 4194304, -6207569920125 / 8388608, -12415139840125 / 16777216, -24830279680125 / 33554432, -49660559360125 / 67108864, -99321118720125 / 134217728, -198642237440125 / 268435456, -397284474880125 / 536870912, -794568949760125 / 1073741824, -1589137899520125 / 2147483648, -3178275799040125 / 4294967296, -6356551598080125 / 8589934592, -12713103196160125 / 17179869184, -25426206392320125 / 34359738368, -50852412784640125 / 68719476736]) from by decide,
    List.foldl_append, List.foldl_append]
  rw [show List.foldl macdSStep (-980500, -987500, 0, 0) [-974000, -973000, -972000, -971000, -970000, -969000, -968000, -967000, -966000, -965000, -964000, -963000, -962000, -961000, -960000, -959000, -958000, -957000, -956000, -955000, -954000, -953000, -952000, -951000, -950000, -949000, -948000, -947000, -946000, -945000, -944000, -943000, -942000, -941000, -940000, -939000, -938000, -937000, -936000, -935000, -934000, -933000, -932000, -931000, -930000, -929000, -928000, -927000, -926000, -925000, -924000, -923000, -922000, -921000, -920000, -919000, -918000, -917000, -916000, -915000, -914000, -913000, -912000, -911000, -910000, -909000, -908000, -907000, -906000, -905000, -904000, -903000, -902000, -901000, -900000, -899000, -898000, -897000, -896000, -895000, -894000, -893000, -892000, -891000, -890000, -889000, -888000, -887000, -886000, -885000, -884000, -883000, -882000, -881000, -880000, -879000, -878000, -877000, -876000, -875000] = (-880500, -887500, 100, 7000) from by decide]
  rw [show List.foldl macdSStep (-880500, -887500, 100, 7000) [-874000, -873000, -872000, -871000, -870000, -869000, -868000, -867000, -866000, -865000, -864000, -863000, -862000, -861000, -860000, -859000, -858000, -857000, -856000, -855000, -854000, -853000, -852000, -851000, -850000, -849000, -848000, -847000, -846000, -845000, -844000, -843000, -842000, -841000, -840000, -839000, -838000, -837000, -836000, -835000, -834000, -833000, -832000, -831000, -830000, -829000, -828000, -827000, -826000, -825000, -824000, -823000, -822000, -821000, -820000, -819000, -818000, -817000, -816000, -815000, -814000, -813000, -812000, -811000, -810000, -809000, -808000, -807000, -806000, -805000, -804000, -803000, -802000, -801000, -800000, -799000, -798000, -797000, -796000, -795000, -794000, -793000, -792000, -791000, -790000, -789000, -788000, -787000, -786000, -785000, -784000, -783000, -782000, -781000, -780000, -779000, -778000, -777000, -776000, -775000] = (-780500, -787500, 200, 7000) from by decide]
  rw [show List.foldl macdSStep (-780500, -787500, 200, 7000) [-774000, -773000, -772000, -771000, -770000, -769000, -768000, -767000, -766000, -765000, -764000, -763000, -762000, -761000, -760000, -759000, -758000, -757000, -756000, -755000, -754000, -753000, -752000, -751000, -750000, -749000, -748000, -747000, -746000, -745000, -744000, -743000, -742000, -741000, -740500, -740250, -740125, -1480125 / 2, -2960125 / 4, -5920125 / 8, -11840125 / 16, -23680125 / 32, -47360125 / 64, -94720125 / 128, -189440125 / 256, -378880125 / 512, -757760125 / 1024, -1515520125 / 2048, -3031040125 / 4096, -6062080125 / 8192, -12124160125 / 16384, -24248320125 / 32768, -48496640125 / 65536, -96993280125 / 131072, -193986560125 / 262144, -387973120125 / 524288, -775946240125 / 1048576, -1551892480125 / 2097152, -3103784960125 / 4194304, -6207569920125 / 8388608, -12415139840125 / 16777216, -24830279680125 / 33554432, -49660559360125 / 67108864, -99321118720125 / 134217728, -198642237440125 / 268435456, -397284474880125 / 536870912, -794568949760125 / 1073741824, -1589137899520125 / 2147483648, -3178275799040125 / 4294967296, -6356551598080125 / 8589934592, -12713103196160125 / 17179869184, -25426206392320125 / 34359738368, -50852412784640125 / 68719476736] = (-706444665885569949529698656725651554712859387099715409344375 / 954642111513548063847755370669029901519608905189031936, -1693809649778594698909504365273413426795292712359390463325482839228887375 / 2286844583320780339901126522995736107710657316176636297513988521984, 273, 443227970337310237768749039168180690273093012615322112364374460958943486873100887118825137244472934172384563503081266419979668164478420327 / 462293248447344589445062383046813139993138656922212060712552069366864052538680951518776773139165287750000000000000000000000000000000000) from by decide]
  decide

set_option maxRecDepth 8000 in
set_option maxHeartbeats 4000000 in
theorem closesB_ind : analyzeIndicators ratSqrt candlesB = indB := by
  have hcl := closesB_closes
  simp only [analyzeIndicators]
  rw [hcl, closesB_E20, closesB_E50, closesB_macd]
  rw [if_pos (show 200 ≤ closesB.length from by decide), closesB_sma200]
  decide

set_option maxRecDepth 8000 in
set_option maxHeartbeats 4000000 in
theorem closesB_signal : generateSignalFull ratSqrt candlesB "swing" "aggressive" =
    some (mkSignal indB pmB "swing" "aggressive" (-101704825569280125 / 137438953472)) := by
  simp only [generateSignalFull]
  rw [closesB_ind, closesB_closes, closesB_prevMacd]
  rfl

set_option maxRecDepth 8000 in
set_option maxHeartbeats 1600000 in
/-- Counterexample to C9 as stated: `candlesB` is a 300-candle sequence
with strictly monotonically increasing closes, yet the regime is not
classified `uptrend` (the trend bias cutoff is not reached), and the
generated signal is SELL. -/
theorem rising300_counterexample :
    candlesB.length = 300 ∧
    strictIncr (candlesB.map (·.close)) = true ∧
    (generateSignalFull ratSqrt candlesB "swing" "aggressive").map (·.regime) ≠
      some Regime.uptrend ∧
    (generateSignalFull ratSqrt candlesB "swing" "aggressive").map (·.signal) =
      some Sig.SELL := by
  refine ⟨candlesB_length, by rw [closesB_closes]; exact closesB_strictIncr, ?_, ?_⟩
  · rw [closesB_signal]
    decide
  · rw [closesB_signal]
    decide

theorem regimeOf_uptrend_of_bias {tb : ℚ} (hb : 0.012 ≤ tb) : regimeOf tb = .uptrend := by
  unfold regimeOf
  have h1 : (0 : ℚ) < tb := lt_of_lt_of_le (by norm_num) hb
  rw [if_pos (by rw [abs_of_pos h1]; exact hb), if_pos h1]

/-- C9 (amended): every 300-candle input with strictly increasing
closes has RSI exactly 100, and the regime is `uptrend` whenever the
computed trend bias reaches the `0.012` cutoff; monotonicity alone does
not force the uptrend classification, and SELL is not excluded (see the
counterexample). -/
theorem rising300_rsi_and_regime (sqrtFn : ℚ → ℚ) (ohlcv : List Candle)
    (signalType riskTolerance : String) (res : FullResult)
    (hlen : ohlcv.length = 300)
    (hmono : strictIncr (ohlcv.map (·.close)) = true)
    (h : generateSignalFull sqrtFn ohlcv signalType riskTolerance = some res) :
    res.ind.rsi = some 100 ∧ (0.012 ≤ res.trendBias → res.regime = Regime.uptrend) := by
  simp only [generateSignalFull] at h
  cases htp : targetPcts signalType with
  | none => rw [htp] at h; simp at h
  | some tpv =>
    rw [htp] at h
    cases hcp : (analyzeIndicators sqrtFn ohlcv).currentPrice with
    | none => rw [hcp] at h; simp at h
    | some price =>
      rw [hcp] at h
      simp only [Option.some.injEq] at h
      subst h
      constructor
      · show rsi (ohlcv.map (·.close)) = some 100
        exact rsi_hundred_of_strictIncr _ (by rw [List.length_map]; omega) hmono
      · intro hb
        simp only [mkSignal] at hb ⊢
        exact regimeOf_uptrend_of_bias hb

set_option maxRecDepth 8000 in
set_option maxHeartbeats 1600000 in
/-- Witness for C9 (amended) on the concrete 300-candle input. -/
theorem rising300_rsi_and_regime_witness :
    candlesB.length = 300 ∧
    strictIncr (candlesB.map (·.close)) = true ∧
    ((mkSignal indB pmB "swing" "aggressive" (-101704825569280125 / 137438953472)).ind.rsi = some 100 ∧
     (0.012 ≤ (mkSignal indB pmB "swing" "aggressive" (-101704825569280125 / 137438953472)).trendBias →
       (mkSignal indB pmB "swing" "aggressive" (-101704825569280125 / 137438953472)).regime = Regime.uptrend)) :=
  ⟨candlesB_length, by rw [closesB_closes]; exact closesB_strictIncr,
    rising300_rsi_and_regime ratSqrt candlesB "swing" "aggressive" _
      candlesB_length (by rw [closesB_closes]; exact closesB_strictIncr) closesB_signal⟩

end Catalyst
